import Mathlib

/-!
Shallow embedding of `src/server.js`, a WhatsApp multi-bot session router.

The program is an Express webhook handler dispatching inbound messages over
fourteen finite-state "sub-bot" dialogues sharing one persisted per-user
session record. Pure logic is translated directly; the three external
collaborators are modelled as follows:

* the generative-text backend (Gemini) is an oracle parameter `GenOracle`:
  `complete` models `geminiModel.generateContent(prompt)` followed by
  `response.text()` (`none` models a thrown error), and `structured` models the
  schema-constrained call in `generateAIQuiz` followed by `JSON.parse`
  (`none` models any thrown error, including a JSON parse failure);
* Firestore and Twilio sends are counted, not performed: `RouterResult`
  records how many times `userRef.set`, `sendWhatsAppMessage` and
  `res.status(200).send` are invoked on the path taken;
* JavaScript runtime errors that can escape a sub-bot handler (and reach the
  router's `catch` block) are modelled by `Except JsError`.

JavaScript value quirks that matter here and are reproduced: a template
literal renders `null` as `"null"` and `undefined` as `"undefined"`; `x || y`
falls through on the empty string; `str.charCodeAt(0)` of the empty string is
`NaN` (modelled by `none`); `try { ... return } finally { ... }` still runs
the `finally` block.
-/

namespace BotHub

/-- JavaScript runtime errors that can escape a sub-bot handler and reach the
router's catch block. -/
inductive JsError where
  | referenceError (msg : String)
  | typeError (msg : String)
deriving Repr, DecidableEq

deriving instance DecidableEq for Except

/-- Renders an `Option String` the way a JS template literal renders a
possibly-`null` variable: `null` prints as `"null"`. -/
def jsNullStr (v : Option String) : String := v.getD "null"

/-- Renders an `Option String` the way a JS template literal renders a
possibly-`undefined` value (e.g. an out-of-range array element). -/
def jsUndefStr (v : Option String) : String := v.getD "undefined"

/-- JS array indexing `l[i]` with an `Int` index: `undefined` (here `none`)
when out of range. -/
def jsListGet (l : List String) (i : Int) : Option String :=
  if h : 0 ≤ i ∧ i.toNat < l.length then some (l.get ⟨i.toNat, h.2⟩) else none

/-- `str.charCodeAt(0)`: code of the first character, `none` for the empty
string (JS returns `NaN`). JS returns a UTF-16 code unit; for the inputs the
router normalizes (trimmed, lower-cased text) the first code unit equals the
code point. -/
def charCodeAt0 (s : String) : Option Nat := s.data.head?.map Char.toNat

/-- `String.fromCharCode(n)` for the in-range codes used by the program. -/
def fromCharCode (n : Int) : String := String.singleton (Char.ofNat n.toNat)

/-- `str.trim()`: strip leading and trailing whitespace. -/
def jsTrim (s : String) : String :=
  ⟨((s.data.dropWhile Char.isWhitespace).reverse.dropWhile Char.isWhitespace).reverse⟩

/-- `str.toLowerCase()` (ASCII case folding, which covers the router's
reserved words and selection codes). -/
def jsToLower (s : String) : String := ⟨s.data.map Char.toLower⟩

/-- Whether `sub` occurs inside `s` (character lists). -/
def containsSub (sub : List Char) : List Char → Bool
  | [] => sub.isEmpty
  | c :: t => sub.isPrefixOf (c :: t) || containsSub sub t

/-- `a.includes(b)` on strings. -/
def jsIncludes (s sub : String) : Bool := containsSub sub.data s.data

/-- Helper for `str.split(sep)`: leftmost non-overlapping splitting. The
fuel argument (always instantiated to the string length) only serves to make
the recursion structural. -/
def splitOnGo (sep : List Char) : Nat → List Char → List Char → List (List Char)
  | _, [], acc => [acc.reverse]
  | 0, rest, acc => [acc.reverse ++ rest]
  | fuel + 1, c :: t, acc =>
      if sep.isPrefixOf (c :: t) then
        acc.reverse :: splitOnGo sep fuel (List.drop sep.length (c :: t)) []
      else
        splitOnGo sep fuel t (c :: acc)

/-- `str.split(sep)` for a non-empty separator (the only use here splits on
the literal word `in` with surrounding spaces). -/
def jsSplitOn (s sep : String) : List String :=
  (splitOnGo sep.data s.data.length s.data []).map (fun l => ⟨l⟩)

/-- JS object lookup on the association lists used for the static option
tables (`EXAMS`, `SUBJECTS`, `MAIN_MENU_OPTIONS`). -/
def lookupStr (ps : List (String × String)) (k : String) : Option String :=
  ps.lookup k

/-- The keycap decoration (variation selector plus combining keycap) appended
to each option key in every option list. -/
def keycap (k : String) : String := k ++ "️⃣"

/-- `Object.keys(m).map(...).join` for a static option table: one line per
key, keycap key then display value; keys iterate in insertion order. -/
def formatKeyedOptions (m : List (String × String)) : String :=
  String.intercalate "\n" (m.map (fun p => keycap p.1 ++ " " ++ p.2))

/-- Global replacement of underscores with spaces. -/
def jsUnderscoresToSpaces (s : String) : String :=
  String.map (fun c => if c = '_' then ' ' else c) s

/-- A JS word character. -/
def isWordChar (c : Char) : Bool := c.isAlphanum || c = '_'

/-- Helper for the word-start upper-casing regex replacement: upper-cases
every word character that does not follow another word character. -/
def titleCaseAux : Bool → List Char → List Char
  | _, [] => []
  | prevWord, c :: cs =>
      (if isWordChar c && !prevWord then c.toUpper else c) :: titleCaseAux (isWordChar c) cs

/-- The word-start upper-casing regex replacement used to display bot names. -/
def jsTitleCaseWordStarts (s : String) : String := ⟨titleCaseAux false s.data⟩

-- BOT_TYPES from the source: stable identities of the sub-bots.
namespace BOT_TYPES

def REVISION_BOT : String := "exam_revision_bot"

def PDF_SUMMARIZER_BOT : String := "pdf_summarizer_bot"

def TRANSLATOR_BOT : String := "translator_bot"

def RESUME_GENERATOR_BOT : String := "resume_generator_bot"

def LEGAL_SIMPLIFIER_BOT : String := "legal_document_simplifier_bot"

def NEWS_DIGEST_BOT : String := "daily_news_digest_bot"

def RECIPE_COACH_BOT : String := "whatsapp_recipe_coach_bot"

def CAREER_COUNSELOR_BOT : String := "ai_career_counselor_bot"

def YOUTUBE_SCRIPT_BOT : String := "youtube_script_thumbnail_bot"

def LOCAL_SERVICES_BOT : String := "local_services_finder_bot"

def FINANCE_REMINDER_BOT : String := "personal_finance_bill_reminder_bot"

def INSTAGRAM_CAPTION_BOT : String := "instagram_caption_hashtag_generator_bot"

def ORDER_TRACKING_BOT : String := "ai_order_tracking_complaint_assistant"

def MENTAL_HEALTH_BOT : String := "mental_health_journal_therapy_companion"

end BOT_TYPES

/-- `MAIN_MENU_OPTIONS`: the Flow Registry, selection code to flow identity,
in `Object.keys` order. The translator bot entry (key `13`) is commented out
in the source. -/
def MAIN_MENU_PAIRS : List (String × String) :=
  [("1", BOT_TYPES.REVISION_BOT),
   ("2", BOT_TYPES.RESUME_GENERATOR_BOT),
   ("3", BOT_TYPES.LEGAL_SIMPLIFIER_BOT),
   ("4", BOT_TYPES.NEWS_DIGEST_BOT),
   ("5", BOT_TYPES.RECIPE_COACH_BOT),
   ("6", BOT_TYPES.CAREER_COUNSELOR_BOT),
   ("7", BOT_TYPES.YOUTUBE_SCRIPT_BOT),
   ("8", BOT_TYPES.LOCAL_SERVICES_BOT),
   ("9", BOT_TYPES.FINANCE_REMINDER_BOT),
   ("10", BOT_TYPES.INSTAGRAM_CAPTION_BOT),
   ("11", BOT_TYPES.ORDER_TRACKING_BOT),
   ("12", BOT_TYPES.MENTAL_HEALTH_BOT)]

-- States of the Exam Revision Bot.
namespace REVISION_BOT_STATES

def AWAITING_EXAM_SELECTION : String := "revision_awaiting_exam_selection"

def AWAITING_SUBJECT_SELECTION : String := "revision_awaiting_subject_selection"

def MAIN_MENU : String := "revision_main_menu"

def IN_QUIZ : String := "revision_in_quiz"

def AWAITING_QUIZ_ANSWER : String := "revision_awaiting_quiz_answer"

def AWAITING_FLASHCARD_TOPIC : String := "revision_awaiting_flashcard_topic"

def AWAITING_AI_QUIZ_TOPIC : String := "revision_awaiting_ai_quiz_topic"

end REVISION_BOT_STATES

-- States of the Resume and Cover Letter Generator Bot.
namespace RESUME_GENERATOR_STATES

def AWAITING_NAME : String := "resume_awaiting_name"

def AWAITING_SKILLS : String := "resume_awaiting_skills"

def AWAITING_GOALS : String := "resume_awaiting_goals"

def CONFIRM_GENERATE : String := "resume_confirm_generate"

end RESUME_GENERATOR_STATES

-- States of the Legal Document Simplifier Bot.
namespace LEGAL_SIMPLIFIER_STATES

def AWAITING_DOCUMENT_TEXT : String := "legal_awaiting_document_text"

def AWAITING_LANGUAGE : String := "legal_awaiting_language"

end LEGAL_SIMPLIFIER_STATES

-- States of the Daily News Digest Bot.
namespace NEWS_DIGEST_STATES

def AWAITING_FEED_PREFERENCE : String := "news_awaiting_feed_preference"

def AWAITING_DELIVERY_TIME : String := "news_awaiting_delivery_time"

end NEWS_DIGEST_STATES

-- States of the WhatsApp Recipe Coach Bot.
namespace RECIPE_COACH_STATES

def AWAITING_INGREDIENTS : String := "recipe_awaiting_ingredients"

def AWAITING_PHOTO_CONFIRMATION : String := "recipe_awaiting_photo_confirmation"

end RECIPE_COACH_STATES

-- States of the AI Career Counselor Bot.
namespace CAREER_COUNSELOR_STATES

def AWAITING_INTERESTS : String := "career_awaiting_interests"

def AWAITING_STREAM_GPA : String := "career_awaiting_stream_gpa"

end CAREER_COUNSELOR_STATES

-- States of the YouTube Script and Thumbnail Bot.
namespace YOUTUBE_SCRIPT_STATES

def AWAITING_VIDEO_IDEA : String := "youtube_awaiting_video_idea"

end YOUTUBE_SCRIPT_STATES

-- States of the Local Services Finder Bot.
namespace LOCAL_SERVICES_STATES

def AWAITING_CITY_SERVICE : String := "local_awaiting_city_service"

end LOCAL_SERVICES_STATES

-- States of the Personal Finance and Bill Reminder Bot.
namespace FINANCE_REMINDER_STATES

def MAIN_MENU : String := "finance_main_menu"

def AWAITING_BILL_TYPE : String := "finance_awaiting_bill_type"

def AWAITING_DUE_DATE : String := "finance_awaiting_due_date"

def AWAITING_AMOUNT : String := "finance_awaiting_amount"

end FINANCE_REMINDER_STATES

-- States of the Instagram Caption and Hashtag Generator Bot.
namespace INSTAGRAM_CAPTION_STATES

def AWAITING_PHOTO_DESCRIPTION : String := "insta_awaiting_photo_description"

end INSTAGRAM_CAPTION_STATES

-- States of the AI Order Tracking and Complaint Assistant.
namespace ORDER_TRACKING_STATES

def AWAITING_AWB : String := "order_awaiting_awb"

def AWAITING_COMPLAINT_DETAILS : String := "order_awaiting_complaint_details"

end ORDER_TRACKING_STATES

-- States of the Mental Health Journal and Therapy Companion.
namespace MENTAL_HEALTH_STATES

def AWAITING_FEELINGS : String := "mental_awaiting_feelings"

end MENTAL_HEALTH_STATES

-- States of the Translator Bot.
namespace TRANSLATOR_STATES

def AWAITING_TEXT : String := "translator_awaiting_text"

def AWAITING_LANGUAGE : String := "translator_awaiting_language"

end TRANSLATOR_STATES

-- Global user states of the bot hub.
namespace USER_STATES

def AWAITING_BOT_SELECTION : String := "awaiting_bot_selection"

end USER_STATES

/-- `EXAMS`: available exams, key to display name, in `Object.keys` order. -/
def EXAMS : List (String × String) :=
  [("1", "JEE"), ("2", "NEET"), ("3", "UPSC"), ("4", "CUET"), ("5", "SSC CGL"),
   ("6", "School Exams (Class 10)"), ("7", "School Exams (Class 12)"),
   ("8", "Bank PO/Clerk")]

/-- `SUBJECTS`: subject tables per exam, in `Object.keys` order. -/
def SUBJECTS : List (String × List (String × String)) :=
  [("JEE",
    [("1", "Physics"), ("2", "Chemistry"), ("3", "Math"),
     ("4", "Computer Science"), ("5", "Biology (for Biotechnology)")]),
   ("NEET",
    [("1", "Physics"), ("2", "Chemistry"), ("3", "Biology"),
     ("4", "Botany"), ("5", "Zoology")]),
   ("UPSC",
    [("1", "History"), ("2", "Geography"), ("3", "Polity"),
     ("4", "Economics"), ("5", "Environment"), ("6", "Science & Technology")]),
   ("CUET",
    [("1", "General Test"), ("2", "English"), ("3", "Domain Specific"),
     ("4", "Accountancy"), ("5", "Business Studies"), ("6", "Legal Studies")]),
   ("SSC CGL",
    [("1", "General Intelligence & Reasoning"), ("2", "General Awareness"),
     ("3", "Quantitative Aptitude"), ("4", "English Comprehension"),
     ("5", "Computer Proficiency")]),
   ("School Exams (Class 10)",
    [("1", "Mathematics"), ("2", "Science"), ("3", "Social Science"),
     ("4", "English Language & Literature"), ("5", "Hindi")]),
   ("School Exams (Class 12)",
    [("1", "Physics"), ("2", "Chemistry"), ("3", "Mathematics"),
     ("4", "Biology"), ("5", "Computer Science"), ("6", "Economics"),
     ("7", "Business Studies"), ("8", "Accountancy"), ("9", "History"),
     ("10", "Political Science")]),
   ("Bank PO/Clerk",
    [("1", "Reasoning Ability"), ("2", "Quantitative Aptitude"),
     ("3", "English Language"), ("4", "General Awareness"),
     ("5", "Computer Knowledge")])]

/-- A parsed question object as produced by the structured Gemini call in
`generateAIQuiz` (fields `question`, `options`, `correctAnswerIndex`). The
declared response schema constrains only the field types, so `options` may
have any length and `correctAnswerIndex` may be any number. -/
structure RawQuestion where
  question : String
  options : List String
  correctAnswerIndex : Int
deriving Repr, DecidableEq

/-- A quiz question as stored in the session: a `RawQuestion` with the
`examType`, `subject` and `topic` fields spread in by `generateAIQuiz`.
`examType` and `subject` come from the session and may be `null`. In the
session each question is stored wrapped as an object with a single `data`
field; the wrapper is collapsed here. -/
structure QuizQuestion where
  question : String
  options : List String
  correctAnswerIndex : Int
  examType : Option String
  subject : Option String
  topic : String
deriving Repr, DecidableEq

/-- The `currentQuiz` sub-record of the session. -/
structure CurrentQuiz where
  questionIds : List QuizQuestion
  currentQIndex : Nat
  score : Nat
  lastQuestionSent : Option QuizQuestion
  lastAnswerCorrect : Option Bool
deriving Repr, DecidableEq

/-- The default (cleared) `currentQuiz` record. -/
def emptyQuiz : CurrentQuiz :=
  { questionIds := [], currentQIndex := 0, score := 0,
    lastQuestionSent := none, lastAnswerCorrect := none }

/-- The `resumeData` sub-record: fields accumulated one per turn. -/
structure ResumeData where
  name : Option String
  skills : Option String
  goals : Option String
deriving Repr, DecidableEq

/-- The cleared `resumeData` record. -/
def emptyResume : ResumeData := { name := none, skills := none, goals := none }

/-- The `legalData` sub-record. -/
structure LegalData where
  documentText : Option String
deriving Repr, DecidableEq

/-- The cleared `legalData` record. -/
def emptyLegal : LegalData := { documentText := none }

/-- The `careerData` sub-record. -/
structure CareerData where
  interests : Option String
  streamGpa : Option String
deriving Repr, DecidableEq

/-- The cleared `careerData` record. -/
def emptyCareer : CareerData := { interests := none, streamGpa := none }

/-- The `financeData` sub-record. -/
structure FinanceData where
  billType : Option String
  dueDate : Option String
  amount : Option String
deriving Repr, DecidableEq

/-- The cleared `financeData` record. -/
def emptyFinance : FinanceData := { billType := none, dueDate := none, amount := none }

/-- The `orderData` sub-record. -/
structure OrderData where
  awb : Option String
deriving Repr, DecidableEq

/-- The cleared `orderData` record. -/
def emptyOrder : OrderData := { awb := none }

/-- The per-user session record persisted in Firestore (`users/{from}`), with
the fields initialized by the route handler. `lastInteraction` is the server
timestamp, abstracted as a `Nat`. -/
structure UserData where
  whatsappNumber : String
  currentBot : Option String
  sessionState : String
  examType : Option String
  subject : Option String
  currentQuiz : CurrentQuiz
  resumeData : ResumeData
  legalData : LegalData
  newsPreferences : Option String
  deliveryTime : Option String
  careerData : CareerData
  financeData : FinanceData
  orderData : OrderData
  textToTranslate : Option String
  lastInteraction : Nat
deriving Repr, DecidableEq

/-- The freshly-defaulted session created when no Firestore document exists
for the sender. -/
def freshUserData (fromNumber : String) (now : Nat) : UserData :=
  { whatsappNumber := fromNumber,
    currentBot := none,
    sessionState := USER_STATES.AWAITING_BOT_SELECTION,
    examType := none,
    subject := none,
    currentQuiz := emptyQuiz,
    resumeData := emptyResume,
    legalData := emptyLegal,
    newsPreferences := none,
    deliveryTime := none,
    careerData := emptyCareer,
    financeData := emptyFinance,
    orderData := emptyOrder,
    textToTranslate := none,
    lastInteraction := now }

/-- The Generative Content Facade: the Gemini model as an oracle.
`complete prompt` models a freeform `generateContent` call followed by
`response.text()` (`none` is a thrown error); `structured prompt` models the
schema-constrained call in `generateAIQuiz` followed by `JSON.parse` (`none`
is any thrown error, including a parse failure). -/
structure GenOracle where
  complete : String → Option String
  structured : String → Option (List RawQuestion)

/-- An oracle on which every generative call fails. -/
def nullOracle : GenOracle :=
  { complete := fun _ => none, structured := fun _ => none }

/-- Formats a question's options one per line as letter, parenthesis,
option text. -/
def formatOptions (options : List String) : String :=
  String.intercalate "\n"
    (options.enum.map (fun p => fromCharCode (97 + (p.1 : Int)) ++ ") " ++ p.2))

/-- The fixed apology returned by `generateExplanation` on any error. -/
def explanationApology : String :=
  "I am unable to generate an explanation at this moment. Please try again later."

/-- `generateExplanation`: builds the MCQ-explanation prompt and returns the
trimmed model output, or the fixed apology when the call throws. -/
def generateExplanation (o : GenOracle) (question : String) (options : List String)
    (correctAnswerIndex : Int) (userAnswer : String) : String :=
  let correctOption := jsListGet options correctAnswerIndex
  let prompt :=
    "Given the following Multiple Choice Question:\nQuestion: " ++ question
    ++ "\nOptions: " ++ formatOptions options
    ++ "\n\nThe correct answer is " ++ fromCharCode (97 + correctAnswerIndex) ++ ") "
    ++ jsUndefStr correctOption ++ ". The user answered: \"" ++ userAnswer
    ++ "\".\n\nPlease provide a concise explanation (around 50-70 words) for the correct answer, and briefly explain why the other options are incorrect if applicable. Start with whether the user's answer was correct or incorrect."
  match o.complete prompt with
  | some t => jsTrim t
  | none => explanationApology

/-- The fixed apology returned by `generateRevisionContent` on any error. -/
def revisionContentApology : String :=
  "I am unable to generate revision content at this moment. Please try again later."

/-- `generateRevisionContent`: flashcards or a summary for a topic; the fixed
apology when the call throws. -/
def generateRevisionContent (o : GenOracle) (topic : String) (type_ : String) : String :=
  let prompt :=
    if type_ = "flashcards" then
      "Generate 3-5 concise flashcards for the topic \"" ++ topic ++ "\". Each flashcard should have a question and an answer. Format them clearly, e.g., \"Q: ...\nA: ...\n\nQ: ...\nA: ...\""
    else
      "Provide a concise summary (around 100-150 words) of the topic \"" ++ topic ++ "\", highlighting key concepts."
  match o.complete prompt with
  | some t => jsTrim t
  | none => revisionContentApology

/-- The prompt sent by `generateAIQuiz`. -/
def aiQuizPrompt (examType subject : Option String) (topic : String) : String :=
  "Generate 3 multiple-choice questions for the " ++ jsNullStr examType
  ++ " exam, subject " ++ jsNullStr subject ++ ", on the topic \"" ++ topic
  ++ "\". Each question should have 4 options (a, b, c, d) and indicate the correct answer. Provide the output as a JSON array of objects, where each object has 'question', 'options' (an array of strings), and 'correctAnswerIndex' (0-3)."

/-- `generateAIQuiz`: requests a structured batch of questions and adds
`examType`, `subject` and `topic` to each; returns the empty list when the
call (or `JSON.parse`) throws. No validation of the parsed batch is
performed beyond the parse itself. -/
def generateAIQuiz (o : GenOracle) (examType subject : Option String)
    (topic : String) : List QuizQuestion :=
  match o.structured (aiQuizPrompt examType subject topic) with
  | some parsedQuiz =>
      parsedQuiz.map (fun q =>
        { question := q.question, options := q.options,
          correctAnswerIndex := q.correctAnswerIndex,
          examType := examType, subject := subject, topic := topic })
  | none => []

/-- The quiz answer mapping: `incomingMsg.charCodeAt(0) - 97`. `none` models
the `NaN` produced for the empty string (`NaN` compares unequal to, and
indexes outside of, everything). -/
def userAnswerIndexOf (msg : String) : Option Int :=
  (charCodeAt0 msg).map (fun n => (n : Int) - 97)

/-- The question prompt block sent for question number `i` (0-based). -/
def quizQuestionPrompt (i : Nat) (q : QuizQuestion) : String :=
  "🔹 Quiz Q" ++ toString (i + 1) ++ ": " ++ q.question ++ "\n" ++ formatOptions q.options

/-- The final score summary appended when the quiz is exhausted. -/
def quizSummary (score total : Nat) : String :=
  "\n\n🎉 Quiz finished! You scored " ++ toString score ++ " out of "
  ++ toString total
  ++ ".\n\nWhat next? Type *quiz* for another, *flashcards* for revision, or *change exam* / *change subject*."

/-- The welcome prompt of the Exam Revision Bot (selection case and handler
default case emit the same text). -/
def revisionWelcome : String :=
  "Welcome to the Exam Revision Bot! Which exam are you preparing for?\n"
  ++ formatKeyedOptions EXAMS

/-- `handleRevisionBotMessage`: the Exam Revision Bot state machine. The
source mutates `userData` in place; here the updated record is returned. In
the `AWAITING_SUBJECT_SELECTION` case, when the guard fails because the
stored exam has no subject table (for example a `null` `examType`), the
`else` branch evaluates `Object.keys` of `undefined` and throws, modelled by
`.error`. In the AI-quiz case the source sets `IN_QUIZ` and then immediately
overwrites it with `AWAITING_QUIZ_ANSWER`; the net state is kept. -/
def handleRevisionBotMessage (o : GenOracle) (incomingMsg : String) (u : UserData) :
    Except JsError (String × UserData) :=
  if u.sessionState = REVISION_BOT_STATES.AWAITING_EXAM_SELECTION then
    match lookupStr EXAMS incomingMsg with
    | some exam =>
        match SUBJECTS.lookup exam with
        | some subjectMap =>
            .ok ("➡️ You selected " ++ exam ++ "!\nWhich subject?\n"
                   ++ formatKeyedOptions subjectMap,
                 { u with examType := some exam,
                          sessionState := REVISION_BOT_STATES.AWAITING_SUBJECT_SELECTION })
        | none => .error (.typeError "Cannot convert undefined or null to object")
    | none =>
        .ok ("Please choose a number from the list:\n" ++ formatKeyedOptions EXAMS, u)
  else if u.sessionState = REVISION_BOT_STATES.AWAITING_SUBJECT_SELECTION then
    match u.examType with
    | some exam =>
        match SUBJECTS.lookup exam with
        | some subjectMap =>
            match lookupStr subjectMap incomingMsg with
            | some subj =>
                .ok ("➡️ You selected " ++ subj
                       ++ ".\nWant a *quiz* (generated by AI) or *flashcards* today?\n👉 Type: *quiz* or *flashcards*",
                     { u with subject := some subj,
                              sessionState := REVISION_BOT_STATES.MAIN_MENU })
            | none =>
                .ok ("Please select a valid subject for " ++ exam ++ ":\n"
                       ++ formatKeyedOptions subjectMap, u)
        | none => .error (.typeError "Cannot convert undefined or null to object")
    | none => .error (.typeError "Cannot convert undefined or null to object")
  else if u.sessionState = REVISION_BOT_STATES.MAIN_MENU then
    if incomingMsg = "quiz" then
      .ok ("Great! For your quiz, which specific topic in " ++ jsNullStr u.subject
             ++ " would you like questions on? (e.g., Thermodynamics, Indian History, etc.)",
           { u with sessionState := REVISION_BOT_STATES.AWAITING_AI_QUIZ_TOPIC })
    else if incomingMsg = "flashcards" then
      .ok ("Great! Which specific topic in " ++ jsNullStr u.subject
             ++ " would you like flashcards or a summary for? (e.g., Thermodynamics, Optics, etc.)",
           { u with sessionState := REVISION_BOT_STATES.AWAITING_FLASHCARD_TOPIC })
    else if incomingMsg = "change exam" ∨ incomingMsg = "change subject" then
      .ok ("Okay, let's start over with the Exam Revision Bot. Which exam are you preparing for?\n"
             ++ formatKeyedOptions EXAMS,
           { u with examType := none, subject := none,
                    sessionState := REVISION_BOT_STATES.AWAITING_EXAM_SELECTION })
    else
      .ok ("I didn't understand that. Please type *quiz*, *flashcards*, *change exam*, or *change subject*.", u)
  else if u.sessionState = REVISION_BOT_STATES.AWAITING_AI_QUIZ_TOPIC then
    match generateAIQuiz o u.examType u.subject incomingMsg with
    | [] =>
        .ok ("Sorry, I couldn't generate a quiz for \"" ++ incomingMsg
               ++ "\". Please try a different topic or try again later.",
             { u with sessionState := REVISION_BOT_STATES.MAIN_MENU })
    | firstAIQuestion :: rest =>
        .ok ("🧠 Here's your quiz on \"" ++ incomingMsg ++ "\"!\n\n"
               ++ quizQuestionPrompt 0 firstAIQuestion,
             { u with currentQuiz :=
                        { u.currentQuiz with
                            questionIds := firstAIQuestion :: rest,
                            currentQIndex := 0, score := 0,
                            lastQuestionSent := some firstAIQuestion },
                      sessionState := REVISION_BOT_STATES.AWAITING_QUIZ_ANSWER })
  else if u.sessionState = REVISION_BOT_STATES.AWAITING_QUIZ_ANSWER then
    match u.currentQuiz.lastQuestionSent with
    | none =>
        .ok ("It seems there was an issue with the last question. Let's try starting a new quiz. Type *quiz* to begin.",
             { u with sessionState := REVISION_BOT_STATES.MAIN_MENU })
    | some currentQuestionData =>
        let userAnswerIndex := userAnswerIndexOf incomingMsg
        let isCorrect : Bool := userAnswerIndex == some currentQuestionData.correctAnswerIndex
        let chosenAnswerText :=
          match userAnswerIndex with
          | some i =>
              match jsListGet currentQuestionData.options i with
              | some s => if s = "" then incomingMsg else s
              | none => incomingMsg
          | none => incomingMsg
        let explanation :=
          generateExplanation o currentQuestionData.question currentQuestionData.options
            currentQuestionData.correctAnswerIndex chosenAnswerText
        let score1 := if isCorrect then u.currentQuiz.score + 1 else u.currentQuiz.score
        let verdict :=
          if isCorrect then "✅ Correct! " ++ explanation
          else "❌ Incorrect. " ++ explanation
        let idx1 := u.currentQuiz.currentQIndex + 1
        if h : idx1 < u.currentQuiz.questionIds.length then
          let nextQuestion := u.currentQuiz.questionIds.get ⟨idx1, h⟩
          .ok (verdict ++ "\n\n" ++ quizQuestionPrompt idx1 nextQuestion,
               { u with currentQuiz :=
                          { u.currentQuiz with
                              score := score1, currentQIndex := idx1,
                              lastQuestionSent := some nextQuestion },
                        sessionState := REVISION_BOT_STATES.AWAITING_QUIZ_ANSWER })
        else
          .ok (verdict ++ quizSummary score1 u.currentQuiz.questionIds.length,
               { u with currentQuiz := emptyQuiz,
                        sessionState := REVISION_BOT_STATES.MAIN_MENU })
  else if u.sessionState = REVISION_BOT_STATES.AWAITING_FLASHCARD_TOPIC then
    let contentType := if jsIncludes incomingMsg "summary" then "summary" else "flashcards"
    let revisionContent := generateRevisionContent o incomingMsg contentType
    .ok ("Here's your " ++ contentType ++ " for \"" ++ incomingMsg ++ "\":\n\n"
           ++ revisionContent
           ++ "\n\nWhat next? Type *quiz* for a quiz, *flashcards* for more revision, or *change exam* / *change subject*.",
         { u with sessionState := REVISION_BOT_STATES.MAIN_MENU })
  else
    .ok (revisionWelcome,
         { u with sessionState := REVISION_BOT_STATES.AWAITING_EXAM_SELECTION })

/-- The welcome prompt of the Resume and Cover Letter Generator Bot. -/
def resumeWelcome : String :=
  "Welcome to the Resume & Cover Letter Generator Bot! What is your full name?"

/-- `handleResumeBotMessage`. The source's `userData.resumeData =
userData.resumeData || {}` initializer is a no-op here because the record is
always present in the model. -/
def handleResumeBotMessage (o : GenOracle) (incomingMsg : String) (u : UserData) :
    Except JsError (String × UserData) :=
  if u.sessionState = RESUME_GENERATOR_STATES.AWAITING_NAME then
    .ok ("Great, " ++ incomingMsg
           ++ "! Now, please list your key skills (e.g., JavaScript, Python, Marketing, Communication).",
         { u with resumeData := { u.resumeData with name := some incomingMsg },
                  sessionState := RESUME_GENERATOR_STATES.AWAITING_SKILLS })
  else if u.sessionState = RESUME_GENERATOR_STATES.AWAITING_SKILLS then
    .ok ("Got it. What are your career goals or the type of job you're seeking?",
         { u with resumeData := { u.resumeData with skills := some incomingMsg },
                  sessionState := RESUME_GENERATOR_STATES.AWAITING_GOALS })
  else if u.sessionState = RESUME_GENERATOR_STATES.AWAITING_GOALS then
    .ok ("Okay, I have your name: " ++ jsNullStr u.resumeData.name
           ++ ", skills: " ++ jsNullStr u.resumeData.skills
           ++ ", and goals: " ++ incomingMsg
           ++ ".\n\nReady to generate your resume and cover letter? Type *yes* to proceed or *start over* to re-enter details.",
         { u with resumeData := { u.resumeData with goals := some incomingMsg },
                  sessionState := RESUME_GENERATOR_STATES.CONFIRM_GENERATE })
  else if u.sessionState = RESUME_GENERATOR_STATES.CONFIRM_GENERATE then
    if incomingMsg = "yes" then
      let prompt :=
        "Generate a concise resume summary and a short cover letter based on the following information:\nName: "
        ++ jsNullStr u.resumeData.name ++ "\nSkills: " ++ jsNullStr u.resumeData.skills
        ++ "\nGoals/Job Type: " ++ jsNullStr u.resumeData.goals
        ++ "\n\nFormat the output clearly with \"Resume Summary:\" and \"Cover Letter:\" sections."
      match o.complete prompt with
      | some t =>
          .ok ("Here's your generated content:\n\n" ++ jsTrim t
                 ++ "\n\n(Note: Actual PDF generation is a complex feature and would require further development.)\n\nType *main menu* to return to bot selection or *start over* for a new resume.",
               { u with resumeData := emptyResume })
      | none =>
          .ok ("Sorry, I could not generate the resume/cover letter at this time. Please try again.", u)
    else if incomingMsg = "start over" then
      .ok ("Okay, let's start fresh. What is your full name?",
           { u with resumeData := emptyResume,
                    sessionState := RESUME_GENERATOR_STATES.AWAITING_NAME })
    else
      .ok ("Please type *yes* to generate or *start over* to re-enter details.", u)
  else
    .ok (resumeWelcome,
         { u with sessionState := RESUME_GENERATOR_STATES.AWAITING_NAME })

/-- The welcome prompt of the Legal Document Simplifier Bot. -/
def legalWelcome : String :=
  "Welcome to the Legal Document Simplifier Bot! Please paste the legal document or text you want me to explain."

/-- `handleLegalSimplifierMessage`. The lost-document guard is JS falsiness,
so an empty stored document also takes the lost-document path. -/
def handleLegalSimplifierMessage (o : GenOracle) (incomingMsg : String) (u : UserData) :
    Except JsError (String × UserData) :=
  if u.sessionState = LEGAL_SIMPLIFIER_STATES.AWAITING_DOCUMENT_TEXT then
    .ok ("Got it. In which language would you like the explanation? (e.g., *English*, *Hindi*)",
         { u with legalData := { documentText := some incomingMsg },
                  sessionState := LEGAL_SIMPLIFIER_STATES.AWAITING_LANGUAGE })
  else if u.sessionState = LEGAL_SIMPLIFIER_STATES.AWAITING_LANGUAGE then
    match u.legalData.documentText with
    | none =>
        .ok ("It seems I lost the document text. Please send the document text again.",
             { u with sessionState := LEGAL_SIMPLIFIER_STATES.AWAITING_DOCUMENT_TEXT })
    | some documentText =>
        if documentText = "" then
          .ok ("It seems I lost the document text. Please send the document text again.",
               { u with sessionState := LEGAL_SIMPLIFIER_STATES.AWAITING_DOCUMENT_TEXT })
        else
          let prompt :=
            "Simplify and explain the following legal text in plain " ++ incomingMsg
            ++ ". Also, highlight any potential risks or scams. Keep the explanation concise and easy to understand:\n\n\""
            ++ documentText ++ "\""
          match o.complete prompt with
          | some t =>
              .ok ("Here's the simplified explanation in " ++ incomingMsg ++ ":\n\n"
                     ++ jsTrim t
                     ++ "\n\nSend another document to simplify, or type 'main menu' to go back.",
                   { u with legalData := emptyLegal,
                            sessionState := LEGAL_SIMPLIFIER_STATES.AWAITING_DOCUMENT_TEXT })
          | none =>
              .ok ("Sorry, I could not simplify that document. Please try again.",
                   { u with sessionState := LEGAL_SIMPLIFIER_STATES.AWAITING_DOCUMENT_TEXT })
  else
    .ok (legalWelcome,
         { u with sessionState := LEGAL_SIMPLIFIER_STATES.AWAITING_DOCUMENT_TEXT })

/-- The welcome prompt of the Daily News Digest Bot. -/
def newsWelcome : String :=
  "Welcome to the Daily News Digest Bot! What kind of news are you interested in? (e.g., *Politics*, *Tech*, *Cricket*, *Finance*)"

/-- `handleNewsDigestMessage`. The delivery-time case builds its reply before
clearing the preferences, and does not change the session state. -/
def handleNewsDigestMessage (o : GenOracle) (incomingMsg : String) (u : UserData) :
    Except JsError (String × UserData) :=
  if u.sessionState = NEWS_DIGEST_STATES.AWAITING_FEED_PREFERENCE then
    .ok ("Got it. You're interested in \"" ++ incomingMsg
           ++ "\" news. What time (e.g., 8 AM, 6 PM IST) would you like to receive your daily digest?",
         { u with newsPreferences := some incomingMsg,
                  sessionState := NEWS_DIGEST_STATES.AWAITING_DELIVERY_TIME })
  else if u.sessionState = NEWS_DIGEST_STATES.AWAITING_DELIVERY_TIME then
    .ok ("Okay, your daily news digest for \"" ++ jsNullStr u.newsPreferences
           ++ "\" will be delivered around " ++ incomingMsg
           ++ ". (Note: Scheduling requires a cron job or cloud function setup.)\n\nType 'main menu' to go back.",
         { u with newsPreferences := none, deliveryTime := none })
  else
    .ok (newsWelcome,
         { u with sessionState := NEWS_DIGEST_STATES.AWAITING_FEED_PREFERENCE })

/-- The welcome prompt of the WhatsApp Recipe Coach Bot. -/
def recipeWelcome : String :=
  "Welcome to the WhatsApp Recipe Coach Bot! Tell me what ingredients you have (e.g., \"potato, onion, turmeric\") or send a food photo."

/-- The media-attachment stub reply of the recipe coach. This string appears
in the source but is unreachable: see `handleRecipeCoachMessage`. -/
def recipeStubReply : String :=
  "I received an image! For a real recipe coach, I'd analyze this food photo to suggest dishes. (Image analysis feature is complex and under development.)\n\nMeanwhile, please list the ingredients you have, or type 'main menu'."

/-- `handleRecipeCoachMessage`. In the `AWAITING_INGREDIENTS` case the source
evaluates `req.body.NumMedia`, but `req` is not a parameter of this function
and is not in scope (it is local to the route callback), so JS throws a
`ReferenceError` before the media check or any recipe generation can run. -/
def handleRecipeCoachMessage (o : GenOracle) (incomingMsg : String) (u : UserData) :
    Except JsError (String × UserData) :=
  if u.sessionState = RECIPE_COACH_STATES.AWAITING_INGREDIENTS then
    .error (.referenceError "req is not defined")
  else
    .ok (recipeWelcome,
         { u with sessionState := RECIPE_COACH_STATES.AWAITING_INGREDIENTS })

/-- The welcome prompt of the AI Career Counselor Bot. -/
def careerWelcome : String :=
  "Welcome to the AI Career Counselor Bot! Tell me about your interests (e.g., \"coding, writing, helping people\")."

/-- `handleCareerCounselorMessage`. On a generation failure the stream/GPA
just entered stays in `careerData` (only the success path clears it). -/
def handleCareerCounselorMessage (o : GenOracle) (incomingMsg : String) (u : UserData) :
    Except JsError (String × UserData) :=
  if u.sessionState = CAREER_COUNSELOR_STATES.AWAITING_INTERESTS then
    .ok ("Got it. What's your academic stream (e.g., Science, Commerce, Arts) and approximate GPA/percentage?",
         { u with careerData := { u.careerData with interests := some incomingMsg },
                  sessionState := CAREER_COUNSELOR_STATES.AWAITING_STREAM_GPA })
  else if u.sessionState = CAREER_COUNSELOR_STATES.AWAITING_STREAM_GPA then
    let prompt :=
      "Based on these interests: " ++ jsNullStr u.careerData.interests
      ++ " and academic background: " ++ incomingMsg
      ++ ", suggest suitable career paths or higher education degrees. Mention potential salary ranges and demand trends if possible."
    match o.complete prompt with
    | some t =>
        .ok ("Here are some career and degree suggestions for you:\n\n" ++ jsTrim t
               ++ "\n\n(Note: Real-time salary/demand data would require external APIs.)\n\nType 'main menu' to go back or send your interests again for new suggestions.",
             { u with careerData := emptyCareer,
                      sessionState := CAREER_COUNSELOR_STATES.AWAITING_INTERESTS })
    | none =>
        .ok ("Sorry, I could not generate career advice. Please try again.",
             { u with careerData := { u.careerData with streamGpa := some incomingMsg },
                      sessionState := CAREER_COUNSELOR_STATES.AWAITING_INTERESTS })
  else
    .ok (careerWelcome,
         { u with sessionState := CAREER_COUNSELOR_STATES.AWAITING_INTERESTS })

/-- The welcome prompt of the YouTube Script and Thumbnail Bot. -/
def youtubeWelcome : String :=
  "Welcome to the YouTube Script & Thumbnail Bot! What's your video idea?"

/-- `handleYoutubeScriptBotMessage`. -/
def handleYoutubeScriptBotMessage (o : GenOracle) (incomingMsg : String) (u : UserData) :
    Except JsError (String × UserData) :=
  if u.sessionState = YOUTUBE_SCRIPT_STATES.AWAITING_VIDEO_IDEA then
    let prompt :=
      "Generate a YouTube video script outline (with intro, main points, CTA, and tags) and 3 thumbnail text suggestions for the video idea: \""
      ++ incomingMsg ++ "\"."
    match o.complete prompt with
    | some t =>
        .ok ("Here are some ideas for your video:\n\n" ++ jsTrim t
               ++ "\n\nSend another video idea, or type 'main menu' to go back.", u)
    | none =>
        .ok ("Sorry, I could not generate content for your video idea. Please try again.", u)
  else
    .ok (youtubeWelcome,
         { u with sessionState := YOUTUBE_SCRIPT_STATES.AWAITING_VIDEO_IDEA })

/-- The welcome prompt of the Local Services Finder Bot. -/
def localServicesWelcome : String :=
  "Welcome to the Local Services Finder Bot! Tell me what service you need and in which city (e.g., \"Plumber in Delhi\", \"Electrician in Mumbai\")."

/-- `handleLocalServicesMessage`. The input is split on the literal
separator; both parts must be JS-truthy (non-empty). -/
def handleLocalServicesMessage (o : GenOracle) (incomingMsg : String) (u : UserData) :
    Except JsError (String × UserData) :=
  if u.sessionState = LOCAL_SERVICES_STATES.AWAITING_CITY_SERVICE then
    let parts := jsSplitOn (jsToLower incomingMsg) " in "
    let service := parts.headD ""
    let city := (parts.drop 1).headD ""
    if service ≠ "" ∧ city ≠ "" then
      .ok ("Searching for \"" ++ service ++ "\" in \"" ++ city
             ++ "\"...\n\n(Note: This feature requires a database of local providers or integration with a local search API, which is under development.)\n\nSend another city and service, or type 'main menu' to go back.",
           u)
    else
      .ok ("Please tell me the service and city, like \"Mehndi artist in Gwalior\".", u)
  else
    .ok (localServicesWelcome,
         { u with sessionState := LOCAL_SERVICES_STATES.AWAITING_CITY_SERVICE })

/-- The welcome prompt of the Personal Finance and Bill Reminder Bot. -/
def financeWelcome : String :=
  "Welcome to the Personal Finance & Bill Reminder Bot! Type *add bill* to set a reminder or *tips* for financial advice."

/-- `handleFinanceReminderMessage`. -/
def handleFinanceReminderMessage (o : GenOracle) (incomingMsg : String) (u : UserData) :
    Except JsError (String × UserData) :=
  if u.sessionState = FINANCE_REMINDER_STATES.MAIN_MENU then
    if incomingMsg = "add bill" then
      .ok ("What type of bill is it? (e.g., *Credit Card*, *Rent*, *EMI*, *SIP*)",
           { u with sessionState := FINANCE_REMINDER_STATES.AWAITING_BILL_TYPE })
    else if incomingMsg = "tips" then
      match o.complete "Provide 3 basic savings or loan tips for a middle-class professional." with
      | some t =>
          .ok ("Here are some financial tips:\n\n" ++ jsTrim t
                 ++ "\n\nType 'add bill' to add a reminder, 'tips' for more tips, or 'main menu' to go back.",
               u)
      | none =>
          .ok ("Sorry, I could not generate financial tips. Please try again.", u)
    else
      .ok ("I didn't understand that. Type *add bill* to set a reminder or *tips* for financial advice.", u)
  else if u.sessionState = FINANCE_REMINDER_STATES.AWAITING_BILL_TYPE then
    .ok ("What is the due date for your " ++ incomingMsg
           ++ "? (e.g., *25th of every month*, *2025-07-30*)",
         { u with financeData := { u.financeData with billType := some incomingMsg },
                  sessionState := FINANCE_REMINDER_STATES.AWAITING_DUE_DATE })
  else if u.sessionState = FINANCE_REMINDER_STATES.AWAITING_DUE_DATE then
    .ok ("What is the amount for your " ++ jsNullStr u.financeData.billType
           ++ " due on " ++ incomingMsg ++ "? (e.g., *₹5000*)",
         { u with financeData := { u.financeData with dueDate := some incomingMsg },
                  sessionState := FINANCE_REMINDER_STATES.AWAITING_AMOUNT })
  else if u.sessionState = FINANCE_REMINDER_STATES.AWAITING_AMOUNT then
    .ok ("Got it! I'll remind you about your " ++ jsNullStr u.financeData.billType
           ++ " of " ++ incomingMsg ++ " due on " ++ jsNullStr u.financeData.dueDate
           ++ ". (Note: Actual reminders require a scheduler setup.)\n\nType 'add bill' to add another, 'tips' for advice, or 'main menu' to go back.",
         { u with financeData := emptyFinance,
                  sessionState := FINANCE_REMINDER_STATES.MAIN_MENU })
  else
    .ok (financeWelcome,
         { u with sessionState := FINANCE_REMINDER_STATES.MAIN_MENU })

/-- The welcome prompt of the Instagram Caption and Hashtag Generator Bot. -/
def instagramWelcome : String :=
  "Welcome to the Instagram Caption/Hashtag Generator Bot! Describe your photo or content (e.g., \"sunset at beach\", \"new product launch\")."

/-- The media-attachment stub reply of the caption generator. This string
appears in the source but is unreachable: see
`handleInstagramCaptionMessage`. -/
def instagramStubReply : String :=
  "I received an image! For a real caption generator, I'd analyze this photo. (Image analysis feature is complex and under development.)\n\nMeanwhile, please describe your photo or content for caption ideas."

/-- `handleInstagramCaptionMessage`. As in the recipe coach, the
`AWAITING_PHOTO_DESCRIPTION` case evaluates `req.body.NumMedia` with `req`
out of scope, so JS throws a `ReferenceError` before anything else runs. -/
def handleInstagramCaptionMessage (o : GenOracle) (incomingMsg : String) (u : UserData) :
    Except JsError (String × UserData) :=
  if u.sessionState = INSTAGRAM_CAPTION_STATES.AWAITING_PHOTO_DESCRIPTION then
    .error (.referenceError "req is not defined")
  else
    .ok (instagramWelcome,
         { u with sessionState := INSTAGRAM_CAPTION_STATES.AWAITING_PHOTO_DESCRIPTION })

/-- The welcome prompt of the AI Order Tracking and Complaint Assistant. -/
def orderWelcome : String :=
  "Welcome to the AI Order Tracking & Complaint Assistant! Please provide your Air Waybill (AWB) number to track your order or lodge a complaint."

/-- `handleOrderTrackingMessage`. -/
def handleOrderTrackingMessage (o : GenOracle) (incomingMsg : String) (u : UserData) :
    Except JsError (String × UserData) :=
  if u.sessionState = ORDER_TRACKING_STATES.AWAITING_AWB then
    .ok ("Got AWB: \"" ++ incomingMsg ++ "\". What is your complaint or query about this order?",
         { u with orderData := { awb := some incomingMsg },
                  sessionState := ORDER_TRACKING_STATES.AWAITING_COMPLAINT_DETAILS })
  else if u.sessionState = ORDER_TRACKING_STATES.AWAITING_COMPLAINT_DETAILS then
    .ok ("Received your complaint about AWB \"" ++ jsNullStr u.orderData.awb
           ++ "\": \"" ++ incomingMsg
           ++ "\".\n\n(Note: This feature requires integration with an order tracking API and a more sophisticated complaint resolution system, which are under development.)\n\nWe will get back to you shortly. Send another AWB or type 'main menu' to go back.",
         { u with orderData := emptyOrder,
                  sessionState := ORDER_TRACKING_STATES.AWAITING_AWB })
  else
    .ok (orderWelcome,
         { u with sessionState := ORDER_TRACKING_STATES.AWAITING_AWB })

/-- The welcome prompt of the Mental Health Journal and Therapy Companion. -/
def mentalHealthWelcome : String :=
  "Welcome to the Mental Health Journal & Therapy Companion. How was your day? What's on your mind?"

/-- `handleMentalHealthMessage`. -/
def handleMentalHealthMessage (o : GenOracle) (incomingMsg : String) (u : UserData) :
    Except JsError (String × UserData) :=
  if u.sessionState = MENTAL_HEALTH_STATES.AWAITING_FEELINGS then
    let prompt :=
      "A user is journaling their feelings: \"" ++ incomingMsg
      ++ "\". Reflect on their feelings, offer a calming thought, and suggest a journaling prompt for deeper reflection. Keep it supportive and concise."
    match o.complete prompt with
    | some t =>
        .ok ("Thank you for sharing:\n\n" ++ jsTrim t
               ++ "\n\nShare more about your day, or type 'main menu' to go back.", u)
    | none =>
        .ok ("Sorry, I could not process your entry. Please try again.", u)
  else
    .ok (mentalHealthWelcome,
         { u with sessionState := MENTAL_HEALTH_STATES.AWAITING_FEELINGS })

/-- The welcome prompt of the Translator Bot. -/
def translatorWelcome : String :=
  "Welcome to the Translator Bot! Please send me the text you want to translate."

/-- `handleTranslatorMessage`. The lost-text guard is JS falsiness; the
stored text is not cleared after a successful translation. -/
def handleTranslatorMessage (o : GenOracle) (incomingMsg : String) (u : UserData) :
    Except JsError (String × UserData) :=
  if u.sessionState = TRANSLATOR_STATES.AWAITING_TEXT then
    .ok ("You sent: \"" ++ incomingMsg
           ++ "\".\n\nWhich language do you want to translate it to? (e.g., *Spanish*, *French*, *Hindi*)",
         { u with textToTranslate := some incomingMsg,
                  sessionState := TRANSLATOR_STATES.AWAITING_LANGUAGE })
  else if u.sessionState = TRANSLATOR_STATES.AWAITING_LANGUAGE then
    match u.textToTranslate with
    | none =>
        .ok ("It seems I lost the text you wanted to translate. Please send the text again.",
             { u with sessionState := TRANSLATOR_STATES.AWAITING_TEXT })
    | some text =>
        if text = "" then
          .ok ("It seems I lost the text you wanted to translate. Please send the text again.",
               { u with sessionState := TRANSLATOR_STATES.AWAITING_TEXT })
        else
          let prompt := "Translate the following text into " ++ incomingMsg ++ ":\n\n\"" ++ text ++ "\""
          match o.complete prompt with
          | some t =>
              .ok ("Here's the translation into " ++ incomingMsg ++ ":\n\n\"" ++ jsTrim t
                     ++ "\"\n\nSend more text to translate, or type 'main menu' to go back.",
                   { u with sessionState := TRANSLATOR_STATES.AWAITING_TEXT })
          | none =>
              .ok ("Sorry, I could not translate that. Please try again or choose a different language.",
                   { u with sessionState := TRANSLATOR_STATES.AWAITING_TEXT })
  else
    .ok (translatorWelcome,
         { u with sessionState := TRANSLATOR_STATES.AWAITING_TEXT })

/-- The rendered list of main-menu options: keycap key plus the bot identity
with underscores replaced by spaces and word starts upper-cased. -/
def botMenuText : String :=
  String.intercalate "\n"
    (MAIN_MENU_PAIRS.map (fun p =>
      keycap p.1 ++ " " ++ jsTitleCaseWordStarts (jsUnderscoresToSpaces p.2)))

/-- The reply of the global-command branch. -/
def mainMenuReply : String :=
  "👋 Welcome to the BotHub! Please choose a bot to interact with:\n"
  ++ botMenuText ++ "\n\nType *main menu* at any time to return here."

/-- The reply to an unrecognized selection at the top menu. -/
def invalidSelectionReply : String :=
  "Invalid selection. Please choose a bot to interact with:\n" ++ botMenuText

/-- The reply of the unrecognized-`currentBot` fallback in the dispatch
switch. -/
def unexpectedErrorReply : String :=
  "An unexpected error occurred. Returning to main menu. Please choose a bot:\n"
  ++ botMenuText

/-- The reply of the router-level catch block. -/
def routerCatchReply : String :=
  "Oops! Something went wrong. Please try again later. Type *main menu* to restart."

/-- The global-command branch's session update: clear the active bot, return
to bot selection and clear every bot-specific data field. -/
def clearAllFlowData (u : UserData) : UserData :=
  { u with currentBot := none,
           sessionState := USER_STATES.AWAITING_BOT_SELECTION,
           examType := none,
           subject := none,
           currentQuiz := emptyQuiz,
           resumeData := emptyResume,
           legalData := emptyLegal,
           newsPreferences := none,
           deliveryTime := none,
           careerData := emptyCareer,
           financeData := emptyFinance,
           orderData := emptyOrder,
           textToTranslate := none }

/-- The bot-selection branch (session state `AWAITING_BOT_SELECTION`): look
the input up in the registry; on a hit set `currentBot` and then switch on
the selected bot to set its entry state and welcome prompt. The source sets
`currentBot` once before the switch; that update is inlined into every
switch branch here (the net session is the same), so the switch's
(unreachable) default also leaves it set. The translator case exists in the
switch although no registry entry maps to it. -/
def botSelection (incomingMsg : String) (u0 : UserData) : String × UserData :=
  match lookupStr MAIN_MENU_PAIRS incomingMsg with
  | some selectedBot =>
      if selectedBot = BOT_TYPES.REVISION_BOT then
        (revisionWelcome,
         { u0 with currentBot := some selectedBot,
                   sessionState := REVISION_BOT_STATES.AWAITING_EXAM_SELECTION })
      else if selectedBot = BOT_TYPES.RESUME_GENERATOR_BOT then
        (resumeWelcome,
         { u0 with currentBot := some selectedBot,
                   sessionState := RESUME_GENERATOR_STATES.AWAITING_NAME })
      else if selectedBot = BOT_TYPES.LEGAL_SIMPLIFIER_BOT then
        (legalWelcome,
         { u0 with currentBot := some selectedBot,
                   sessionState := LEGAL_SIMPLIFIER_STATES.AWAITING_DOCUMENT_TEXT })
      else if selectedBot = BOT_TYPES.NEWS_DIGEST_BOT then
        (newsWelcome,
         { u0 with currentBot := some selectedBot,
                   sessionState := NEWS_DIGEST_STATES.AWAITING_FEED_PREFERENCE })
      else if selectedBot = BOT_TYPES.RECIPE_COACH_BOT then
        (recipeWelcome,
         { u0 with currentBot := some selectedBot,
                   sessionState := RECIPE_COACH_STATES.AWAITING_INGREDIENTS })
      else if selectedBot = BOT_TYPES.CAREER_COUNSELOR_BOT then
        (careerWelcome,
         { u0 with currentBot := some selectedBot,
                   sessionState := CAREER_COUNSELOR_STATES.AWAITING_INTERESTS })
      else if selectedBot = BOT_TYPES.YOUTUBE_SCRIPT_BOT then
        (youtubeWelcome,
         { u0 with currentBot := some selectedBot,
                   sessionState := YOUTUBE_SCRIPT_STATES.AWAITING_VIDEO_IDEA })
      else if selectedBot = BOT_TYPES.LOCAL_SERVICES_BOT then
        (localServicesWelcome,
         { u0 with currentBot := some selectedBot,
                   sessionState := LOCAL_SERVICES_STATES.AWAITING_CITY_SERVICE })
      else if selectedBot = BOT_TYPES.FINANCE_REMINDER_BOT then
        (financeWelcome,
         { u0 with currentBot := some selectedBot,
                   sessionState := FINANCE_REMINDER_STATES.MAIN_MENU })
      else if selectedBot = BOT_TYPES.INSTAGRAM_CAPTION_BOT then
        (instagramWelcome,
         { u0 with currentBot := some selectedBot,
                   sessionState := INSTAGRAM_CAPTION_STATES.AWAITING_PHOTO_DESCRIPTION })
      else if selectedBot = BOT_TYPES.ORDER_TRACKING_BOT then
        (orderWelcome,
         { u0 with currentBot := some selectedBot,
                   sessionState := ORDER_TRACKING_STATES.AWAITING_AWB })
      else if selectedBot = BOT_TYPES.MENTAL_HEALTH_BOT then
        (mentalHealthWelcome,
         { u0 with currentBot := some selectedBot,
                   sessionState := MENTAL_HEALTH_STATES.AWAITING_FEELINGS })
      else if selectedBot = BOT_TYPES.TRANSLATOR_BOT then
        (translatorWelcome,
         { u0 with currentBot := some selectedBot,
                   sessionState := TRANSLATOR_STATES.AWAITING_TEXT })
      else
        ("Invalid bot selection. Please choose a number from the list.",
         { u0 with currentBot := some selectedBot })
  | none => (invalidSelectionReply, u0)

/-- The dispatch switch over `currentBot` for a session that is inside a
sub-bot. Returns the handler result together with the identity of the
handler that was invoked (`none` when the default fallback ran). No handler
mutates the session before it can throw, so on `.error` the session reaching
the catch block is the input one. -/
def delegate (o : GenOracle) (incomingMsg : String) (u : UserData) :
    Except JsError (String × UserData) × Option String :=
  if u.currentBot = some BOT_TYPES.REVISION_BOT then
    (handleRevisionBotMessage o incomingMsg u, some BOT_TYPES.REVISION_BOT)
  else if u.currentBot = some BOT_TYPES.RESUME_GENERATOR_BOT then
    (handleResumeBotMessage o incomingMsg u, some BOT_TYPES.RESUME_GENERATOR_BOT)
  else if u.currentBot = some BOT_TYPES.LEGAL_SIMPLIFIER_BOT then
    (handleLegalSimplifierMessage o incomingMsg u, some BOT_TYPES.LEGAL_SIMPLIFIER_BOT)
  else if u.currentBot = some BOT_TYPES.NEWS_DIGEST_BOT then
    (handleNewsDigestMessage o incomingMsg u, some BOT_TYPES.NEWS_DIGEST_BOT)
  else if u.currentBot = some BOT_TYPES.RECIPE_COACH_BOT then
    (handleRecipeCoachMessage o incomingMsg u, some BOT_TYPES.RECIPE_COACH_BOT)
  else if u.currentBot = some BOT_TYPES.CAREER_COUNSELOR_BOT then
    (handleCareerCounselorMessage o incomingMsg u, some BOT_TYPES.CAREER_COUNSELOR_BOT)
  else if u.currentBot = some BOT_TYPES.YOUTUBE_SCRIPT_BOT then
    (handleYoutubeScriptBotMessage o incomingMsg u, some BOT_TYPES.YOUTUBE_SCRIPT_BOT)
  else if u.currentBot = some BOT_TYPES.LOCAL_SERVICES_BOT then
    (handleLocalServicesMessage o incomingMsg u, some BOT_TYPES.LOCAL_SERVICES_BOT)
  else if u.currentBot = some BOT_TYPES.FINANCE_REMINDER_BOT then
    (handleFinanceReminderMessage o incomingMsg u, some BOT_TYPES.FINANCE_REMINDER_BOT)
  else if u.currentBot = some BOT_TYPES.INSTAGRAM_CAPTION_BOT then
    (handleInstagramCaptionMessage o incomingMsg u, some BOT_TYPES.INSTAGRAM_CAPTION_BOT)
  else if u.currentBot = some BOT_TYPES.ORDER_TRACKING_BOT then
    (handleOrderTrackingMessage o incomingMsg u, some BOT_TYPES.ORDER_TRACKING_BOT)
  else if u.currentBot = some BOT_TYPES.MENTAL_HEALTH_BOT then
    (handleMentalHealthMessage o incomingMsg u, some BOT_TYPES.MENTAL_HEALTH_BOT)
  else if u.currentBot = some BOT_TYPES.TRANSLATOR_BOT then
    (handleTranslatorMessage o incomingMsg u, some BOT_TYPES.TRANSLATOR_BOT)
  else
    (.ok (unexpectedErrorReply,
          { u with currentBot := none,
                   sessionState := USER_STATES.AWAITING_BOT_SELECTION }),
     none)

/-- The observable outcome of one webhook request: the persisted session, the
reply text, and how many times the session store, the outbound send and the
HTTP acknowledgment were invoked, plus which sub-bot handler ran. -/
structure RouterResult where
  userData : UserData
  reply : String
  saves : Nat
  sends : Nat
  acks : Nat
  dispatched : Option String
deriving Repr, DecidableEq

/-- One request through the route handler, after the session has been
loaded: normalize the input, handle global commands, otherwise select a bot
or delegate, catch handler errors, and run the `finally` block (timestamp,
save, send, acknowledge).

The global-command branch saves, sends and acknowledges and then `return`s,
but in JS the `finally` block of the enclosing `try` still runs, so that
path stamps the timestamp and saves, sends and acknowledges a second time
(the second acknowledgment errors at the HTTP layer since the headers were
already sent; the invocation is still counted here).

`hasMedia` models the webhook's media-presence fields. It is unused: the
only two readers (`handleRecipeCoachMessage`, `handleInstagramCaptionMessage`)
reference `req` out of scope and throw before reading it. -/
def routerStep (o : GenOracle) (u0 : UserData) (rawBody : String)
    (hasMedia : Bool) (now : Nat) : RouterResult :=
  let incomingMsg := jsToLower (jsTrim rawBody)
  if incomingMsg = "restart" ∨ incomingMsg = "main menu" then
    { userData := { clearAllFlowData u0 with lastInteraction := now },
      reply := mainMenuReply,
      saves := 2, sends := 2, acks := 2, dispatched := none }
  else if u0.sessionState = USER_STATES.AWAITING_BOT_SELECTION then
    let p := botSelection incomingMsg u0
    { userData := { p.2 with lastInteraction := now },
      reply := p.1,
      saves := 1, sends := 1, acks := 1, dispatched := none }
  else
    match delegate o incomingMsg u0 with
    | (.ok (reply, u1), d) =>
        { userData := { u1 with lastInteraction := now },
          reply := reply,
          saves := 1, sends := 1, acks := 1, dispatched := d }
    | (.error _, d) =>
        { userData := { u0 with currentBot := none,
                                sessionState := USER_STATES.AWAITING_BOT_SELECTION,
                                lastInteraction := now },
          reply := routerCatchReply,
          saves := 1, sends := 1, acks := 1, dispatched := d }

/-- A sequence of requests for one user: fold `routerStep` over a list of
(raw body, media flag, timestamp) triples. -/
def runMessages (o : GenOracle) (u : UserData)
    (msgs : List (String × Bool × Nat)) : UserData :=
  msgs.foldl (fun acc m => (routerStep o acc m.1 m.2.1 m.2.2).userData) u

/-- An oracle whose structured call parses successfully into a batch with one
question that violates the intended schema: three options and correct index
seven. The declared response schema constrains neither the options length
nor the index range, so such a batch is a possible successful parse. -/
def malformedBatchOracle : GenOracle :=
  { complete := fun _ => none,
    structured := fun _ =>
      some [{ question := "q?", options := ["x", "y", "z"], correctAnswerIndex := 7 }] }

/-- A session sitting in the recipe coach's ingredients state. -/
def recipeSession : UserData :=
  { freshUserData "user-recipe" 0 with
      currentBot := some BOT_TYPES.RECIPE_COACH_BOT,
      sessionState := RECIPE_COACH_STATES.AWAITING_INGREDIENTS }

/-- A session sitting in the caption generator's photo-description state. -/
def instaSession : UserData :=
  { freshUserData "user-insta" 0 with
      currentBot := some BOT_TYPES.INSTAGRAM_CAPTION_BOT,
      sessionState := INSTAGRAM_CAPTION_STATES.AWAITING_PHOTO_DESCRIPTION }

/-- The `currentBot` values a session can reach from a fresh session: no
active bot, or one of the twelve registry targets. -/
def reachableBots : List (Option String) :=
  none :: MAIN_MENU_PAIRS.map (fun p => some p.2)

/-- A session with every per-flow data record populated, used to exhibit the
global-command reset. -/
def populatedSession : UserData :=
  { freshUserData "user-pop" 3 with
      currentBot := some BOT_TYPES.RESUME_GENERATOR_BOT,
      sessionState := RESUME_GENERATOR_STATES.AWAITING_SKILLS,
      examType := some "JEE",
      subject := some "Math",
      currentQuiz := { questionIds := [], currentQIndex := 2, score := 1,
                       lastQuestionSent := none, lastAnswerCorrect := some true },
      resumeData := { name := some "Ada", skills := none, goals := none },
      legalData := { documentText := some "contract" },
      newsPreferences := some "tech",
      deliveryTime := some "8 AM",
      careerData := { interests := some "coding", streamGpa := none },
      financeData := { billType := some "Rent", dueDate := none, amount := none },
      orderData := { awb := some "AWB1" },
      textToTranslate := some "hola" }

/-- The defined entry state of each registry flow. -/
def flowEntryState : List (String × String) :=
  [(BOT_TYPES.REVISION_BOT, REVISION_BOT_STATES.AWAITING_EXAM_SELECTION),
   (BOT_TYPES.RESUME_GENERATOR_BOT, RESUME_GENERATOR_STATES.AWAITING_NAME),
   (BOT_TYPES.LEGAL_SIMPLIFIER_BOT, LEGAL_SIMPLIFIER_STATES.AWAITING_DOCUMENT_TEXT),
   (BOT_TYPES.NEWS_DIGEST_BOT, NEWS_DIGEST_STATES.AWAITING_FEED_PREFERENCE),
   (BOT_TYPES.RECIPE_COACH_BOT, RECIPE_COACH_STATES.AWAITING_INGREDIENTS),
   (BOT_TYPES.CAREER_COUNSELOR_BOT, CAREER_COUNSELOR_STATES.AWAITING_INTERESTS),
   (BOT_TYPES.YOUTUBE_SCRIPT_BOT, YOUTUBE_SCRIPT_STATES.AWAITING_VIDEO_IDEA),
   (BOT_TYPES.LOCAL_SERVICES_BOT, LOCAL_SERVICES_STATES.AWAITING_CITY_SERVICE),
   (BOT_TYPES.FINANCE_REMINDER_BOT, FINANCE_REMINDER_STATES.MAIN_MENU),
   (BOT_TYPES.INSTAGRAM_CAPTION_BOT, INSTAGRAM_CAPTION_STATES.AWAITING_PHOTO_DESCRIPTION),
   (BOT_TYPES.ORDER_TRACKING_BOT, ORDER_TRACKING_STATES.AWAITING_AWB),
   (BOT_TYPES.MENTAL_HEALTH_BOT, MENTAL_HEALTH_STATES.AWAITING_FEELINGS)]

/-- The welcome prompt of each registry flow. -/
def flowWelcome : List (String × String) :=
  [(BOT_TYPES.REVISION_BOT, revisionWelcome),
   (BOT_TYPES.RESUME_GENERATOR_BOT, resumeWelcome),
   (BOT_TYPES.LEGAL_SIMPLIFIER_BOT, legalWelcome),
   (BOT_TYPES.NEWS_DIGEST_BOT, newsWelcome),
   (BOT_TYPES.RECIPE_COACH_BOT, recipeWelcome),
   (BOT_TYPES.CAREER_COUNSELOR_BOT, careerWelcome),
   (BOT_TYPES.YOUTUBE_SCRIPT_BOT, youtubeWelcome),
   (BOT_TYPES.LOCAL_SERVICES_BOT, localServicesWelcome),
   (BOT_TYPES.FINANCE_REMINDER_BOT, financeWelcome),
   (BOT_TYPES.INSTAGRAM_CAPTION_BOT, instagramWelcome),
   (BOT_TYPES.ORDER_TRACKING_BOT, orderWelcome),
   (BOT_TYPES.MENTAL_HEALTH_BOT, mentalHealthWelcome)]



/-- A sample stored quiz question (correct option letter b). -/
def sampleQuestion0 : QuizQuestion :=
  { question := "Q0", options := ["w", "x", "y", "z"], correctAnswerIndex := 1,
    examType := some "JEE", subject := some "Math", topic := "t" }

/-- A second sample stored quiz question (correct option letter a). -/
def sampleQuestion1 : QuizQuestion :=
  { question := "Q1", options := ["p", "q", "r", "s"], correctAnswerIndex := 0,
    examType := some "JEE", subject := some "Math", topic := "t" }

/-- A session in the middle of a two-question quiz, awaiting the answer to
the first question. -/
def quizSession : UserData :=
  { freshUserData "user-quiz" 0 with
      currentBot := some BOT_TYPES.REVISION_BOT,
      sessionState := REVISION_BOT_STATES.AWAITING_QUIZ_ANSWER,
      examType := some "JEE",
      subject := some "Math",
      currentQuiz := { questionIds := [sampleQuestion0, sampleQuestion1],
                       currentQIndex := 0, score := 0,
                       lastQuestionSent := some sampleQuestion0,
                       lastAnswerCorrect := none } }

/-- A session awaiting an AI-quiz topic in the revision flow. -/
def topicSession : UserData :=
  { freshUserData "user-topic" 0 with
      currentBot := some BOT_TYPES.REVISION_BOT,
      sessionState := REVISION_BOT_STATES.AWAITING_AI_QUIZ_TOPIC,
      examType := some "JEE",
      subject := some "Math" }

end BotHub

namespace BotHub

/-- Every sub-bot handler mutates only its own record and the session state:
none of them touches `currentBot`. One preservation lemma per handler. -/
theorem handleRevisionBotMessage_currentBot (o : GenOracle) (m : String) (u : UserData)
    (r : String) (u' : UserData) (h : handleRevisionBotMessage o m u = .ok (r, u')) :
    u'.currentBot = u.currentBot := by
  unfold handleRevisionBotMessage at h
  try simp only [] at h
  repeat' split at h
  all_goals cases h
  all_goals rfl

/-- `handleResumeBotMessage` does not touch `currentBot`. -/
theorem handleResumeBotMessage_currentBot (o : GenOracle) (m : String) (u : UserData)
    (r : String) (u' : UserData) (h : handleResumeBotMessage o m u = .ok (r, u')) :
    u'.currentBot = u.currentBot := by
  unfold handleResumeBotMessage at h
  try simp only [] at h
  repeat' split at h
  all_goals cases h
  all_goals rfl

/-- `handleLegalSimplifierMessage` does not touch `currentBot`. -/
theorem handleLegalSimplifierMessage_currentBot (o : GenOracle) (m : String) (u : UserData)
    (r : String) (u' : UserData) (h : handleLegalSimplifierMessage o m u = .ok (r, u')) :
    u'.currentBot = u.currentBot := by
  unfold handleLegalSimplifierMessage at h
  try simp only [] at h
  repeat' split at h
  all_goals cases h
  all_goals rfl

/-- `handleNewsDigestMessage` does not touch `currentBot`. -/
theorem handleNewsDigestMessage_currentBot (o : GenOracle) (m : String) (u : UserData)
    (r : String) (u' : UserData) (h : handleNewsDigestMessage o m u = .ok (r, u')) :
    u'.currentBot = u.currentBot := by
  unfold handleNewsDigestMessage at h
  try simp only [] at h
  repeat' split at h
  all_goals cases h
  all_goals rfl

/-- `handleRecipeCoachMessage` does not touch `currentBot`. -/
theorem handleRecipeCoachMessage_currentBot (o : GenOracle) (m : String) (u : UserData)
    (r : String) (u' : UserData) (h : handleRecipeCoachMessage o m u = .ok (r, u')) :
    u'.currentBot = u.currentBot := by
  unfold handleRecipeCoachMessage at h
  try simp only [] at h
  repeat' split at h
  all_goals cases h
  all_goals rfl

/-- `handleCareerCounselorMessage` does not touch `currentBot`. -/
theorem handleCareerCounselorMessage_currentBot (o : GenOracle) (m : String) (u : UserData)
    (r : String) (u' : UserData) (h : handleCareerCounselorMessage o m u = .ok (r, u')) :
    u'.currentBot = u.currentBot := by
  unfold handleCareerCounselorMessage at h
  try simp only [] at h
  repeat' split at h
  all_goals cases h
  all_goals rfl

/-- `handleYoutubeScriptBotMessage` does not touch `currentBot`. -/
theorem handleYoutubeScriptBotMessage_currentBot (o : GenOracle) (m : String) (u : UserData)
    (r : String) (u' : UserData) (h : handleYoutubeScriptBotMessage o m u = .ok (r, u')) :
    u'.currentBot = u.currentBot := by
  unfold handleYoutubeScriptBotMessage at h
  try simp only [] at h
  repeat' split at h
  all_goals cases h
  all_goals rfl

/-- `handleLocalServicesMessage` does not touch `currentBot`. -/
theorem handleLocalServicesMessage_currentBot (o : GenOracle) (m : String) (u : UserData)
    (r : String) (u' : UserData) (h : handleLocalServicesMessage o m u = .ok (r, u')) :
    u'.currentBot = u.currentBot := by
  unfold handleLocalServicesMessage at h
  try simp only [] at h
  repeat' split at h
  all_goals cases h
  all_goals rfl

/-- `handleFinanceReminderMessage` does not touch `currentBot`. -/
theorem handleFinanceReminderMessage_currentBot (o : GenOracle) (m : String) (u : UserData)
    (r : String) (u' : UserData) (h : handleFinanceReminderMessage o m u = .ok (r, u')) :
    u'.currentBot = u.currentBot := by
  unfold handleFinanceReminderMessage at h
  try simp only [] at h
  repeat' split at h
  all_goals cases h
  all_goals rfl

/-- `handleInstagramCaptionMessage` does not touch `currentBot`. -/
theorem handleInstagramCaptionMessage_currentBot (o : GenOracle) (m : String) (u : UserData)
    (r : String) (u' : UserData) (h : handleInstagramCaptionMessage o m u = .ok (r, u')) :
    u'.currentBot = u.currentBot := by
  unfold handleInstagramCaptionMessage at h
  try simp only [] at h
  repeat' split at h
  all_goals cases h
  all_goals rfl

/-- `handleOrderTrackingMessage` does not touch `currentBot`. -/
theorem handleOrderTrackingMessage_currentBot (o : GenOracle) (m : String) (u : UserData)
    (r : String) (u' : UserData) (h : handleOrderTrackingMessage o m u = .ok (r, u')) :
    u'.currentBot = u.currentBot := by
  unfold handleOrderTrackingMessage at h
  try simp only [] at h
  repeat' split at h
  all_goals cases h
  all_goals rfl

/-- `handleMentalHealthMessage` does not touch `currentBot`. -/
theorem handleMentalHealthMessage_currentBot (o : GenOracle) (m : String) (u : UserData)
    (r : String) (u' : UserData) (h : handleMentalHealthMessage o m u = .ok (r, u')) :
    u'.currentBot = u.currentBot := by
  unfold handleMentalHealthMessage at h
  try simp only [] at h
  repeat' split at h
  all_goals cases h
  all_goals rfl

/-- `handleTranslatorMessage` does not touch `currentBot`. -/
theorem handleTranslatorMessage_currentBot (o : GenOracle) (m : String) (u : UserData)
    (r : String) (u' : UserData) (h : handleTranslatorMessage o m u = .ok (r, u')) :
    u'.currentBot = u.currentBot := by
  unfold handleTranslatorMessage at h
  try simp only [] at h
  repeat' split at h
  all_goals cases h
  all_goals rfl


/-- The selection branch either leaves the session's bot and state unchanged
(registry miss) or sets `currentBot` to the registry's target. -/
theorem botSelection_currentBot (msg : String) (u : UserData) :
    ((botSelection msg u).2.currentBot = u.currentBot
      ∧ (botSelection msg u).2.sessionState = u.sessionState)
    ∨ (∃ b, lookupStr MAIN_MENU_PAIRS msg = some b
        ∧ (botSelection msg u).2.currentBot = some b) := by
  unfold botSelection
  cases hlk : lookupStr MAIN_MENU_PAIRS msg with
  | none => exact Or.inl ⟨rfl, rfl⟩
  | some sb =>
    simp only []
    by_cases hs0 : sb = BOT_TYPES.REVISION_BOT
    · rw [if_pos hs0]
      exact Or.inr ⟨sb, rfl, rfl⟩
    · rw [if_neg hs0]
      by_cases hs1 : sb = BOT_TYPES.RESUME_GENERATOR_BOT
      · rw [if_pos hs1]
        exact Or.inr ⟨sb, rfl, rfl⟩
      · rw [if_neg hs1]
        by_cases hs2 : sb = BOT_TYPES.LEGAL_SIMPLIFIER_BOT
        · rw [if_pos hs2]
          exact Or.inr ⟨sb, rfl, rfl⟩
        · rw [if_neg hs2]
          by_cases hs3 : sb = BOT_TYPES.NEWS_DIGEST_BOT
          · rw [if_pos hs3]
            exact Or.inr ⟨sb, rfl, rfl⟩
          · rw [if_neg hs3]
            by_cases hs4 : sb = BOT_TYPES.RECIPE_COACH_BOT
            · rw [if_pos hs4]
              exact Or.inr ⟨sb, rfl, rfl⟩
            · rw [if_neg hs4]
              by_cases hs5 : sb = BOT_TYPES.CAREER_COUNSELOR_BOT
              · rw [if_pos hs5]
                exact Or.inr ⟨sb, rfl, rfl⟩
              · rw [if_neg hs5]
                by_cases hs6 : sb = BOT_TYPES.YOUTUBE_SCRIPT_BOT
                · rw [if_pos hs6]
                  exact Or.inr ⟨sb, rfl, rfl⟩
                · rw [if_neg hs6]
                  by_cases hs7 : sb = BOT_TYPES.LOCAL_SERVICES_BOT
                  · rw [if_pos hs7]
                    exact Or.inr ⟨sb, rfl, rfl⟩
                  · rw [if_neg hs7]
                    by_cases hs8 : sb = BOT_TYPES.FINANCE_REMINDER_BOT
                    · rw [if_pos hs8]
                      exact Or.inr ⟨sb, rfl, rfl⟩
                    · rw [if_neg hs8]
                      by_cases hs9 : sb = BOT_TYPES.INSTAGRAM_CAPTION_BOT
                      · rw [if_pos hs9]
                        exact Or.inr ⟨sb, rfl, rfl⟩
                      · rw [if_neg hs9]
                        by_cases hs10 : sb = BOT_TYPES.ORDER_TRACKING_BOT
                        · rw [if_pos hs10]
                          exact Or.inr ⟨sb, rfl, rfl⟩
                        · rw [if_neg hs10]
                          by_cases hs11 : sb = BOT_TYPES.MENTAL_HEALTH_BOT
                          · rw [if_pos hs11]
                            exact Or.inr ⟨sb, rfl, rfl⟩
                          · rw [if_neg hs11]
                            by_cases hs12 : sb = BOT_TYPES.TRANSLATOR_BOT
                            · rw [if_pos hs12]
                              exact Or.inr ⟨sb, rfl, rfl⟩
                            · rw [if_neg hs12]
                              exact Or.inr ⟨sb, rfl, rfl⟩

/-- When the dispatch switch completes without throwing, either a handler ran
(leaving `currentBot` unchanged) or the default fallback reset the session to
the top menu. -/
theorem delegate_ok_currentBot (o : GenOracle) (msg : String) (u : UserData)
    (reply : String) (u1 : UserData) (d : Option String)
    (h : delegate o msg u = (.ok (reply, u1), d)) :
    (u1.currentBot = u.currentBot ∧ ∃ x, u.currentBot = some x)
    ∨ (u1.currentBot = none ∧ u1.sessionState = USER_STATES.AWAITING_BOT_SELECTION) := by
  unfold delegate at h
  by_cases hc0 : u.currentBot = some BOT_TYPES.REVISION_BOT
  · rw [if_pos hc0] at h
    injection h with h1 h2
    exact Or.inl ⟨handleRevisionBotMessage_currentBot _ _ _ _ _ h1, ⟨_, hc0⟩⟩
  · rw [if_neg hc0] at h
    by_cases hc1 : u.currentBot = some BOT_TYPES.RESUME_GENERATOR_BOT
    · rw [if_pos hc1] at h
      injection h with h1 h2
      exact Or.inl ⟨handleResumeBotMessage_currentBot _ _ _ _ _ h1, ⟨_, hc1⟩⟩
    · rw [if_neg hc1] at h
      by_cases hc2 : u.currentBot = some BOT_TYPES.LEGAL_SIMPLIFIER_BOT
      · rw [if_pos hc2] at h
        injection h with h1 h2
        exact Or.inl ⟨handleLegalSimplifierMessage_currentBot _ _ _ _ _ h1, ⟨_, hc2⟩⟩
      · rw [if_neg hc2] at h
        by_cases hc3 : u.currentBot = some BOT_TYPES.NEWS_DIGEST_BOT
        · rw [if_pos hc3] at h
          injection h with h1 h2
          exact Or.inl ⟨handleNewsDigestMessage_currentBot _ _ _ _ _ h1, ⟨_, hc3⟩⟩
        · rw [if_neg hc3] at h
          by_cases hc4 : u.currentBot = some BOT_TYPES.RECIPE_COACH_BOT
          · rw [if_pos hc4] at h
            injection h with h1 h2
            exact Or.inl ⟨handleRecipeCoachMessage_currentBot _ _ _ _ _ h1, ⟨_, hc4⟩⟩
          · rw [if_neg hc4] at h
            by_cases hc5 : u.currentBot = some BOT_TYPES.CAREER_COUNSELOR_BOT
            · rw [if_pos hc5] at h
              injection h with h1 h2
              exact Or.inl ⟨handleCareerCounselorMessage_currentBot _ _ _ _ _ h1, ⟨_, hc5⟩⟩
            · rw [if_neg hc5] at h
              by_cases hc6 : u.currentBot = some BOT_TYPES.YOUTUBE_SCRIPT_BOT
              · rw [if_pos hc6] at h
                injection h with h1 h2
                exact Or.inl ⟨handleYoutubeScriptBotMessage_currentBot _ _ _ _ _ h1, ⟨_, hc6⟩⟩
              · rw [if_neg hc6] at h
                by_cases hc7 : u.currentBot = some BOT_TYPES.LOCAL_SERVICES_BOT
                · rw [if_pos hc7] at h
                  injection h with h1 h2
                  exact Or.inl ⟨handleLocalServicesMessage_currentBot _ _ _ _ _ h1, ⟨_, hc7⟩⟩
                · rw [if_neg hc7] at h
                  by_cases hc8 : u.currentBot = some BOT_TYPES.FINANCE_REMINDER_BOT
                  · rw [if_pos hc8] at h
                    injection h with h1 h2
                    exact Or.inl ⟨handleFinanceReminderMessage_currentBot _ _ _ _ _ h1, ⟨_, hc8⟩⟩
                  · rw [if_neg hc8] at h
                    by_cases hc9 : u.currentBot = some BOT_TYPES.INSTAGRAM_CAPTION_BOT
                    · rw [if_pos hc9] at h
                      injection h with h1 h2
                      exact Or.inl ⟨handleInstagramCaptionMessage_currentBot _ _ _ _ _ h1, ⟨_, hc9⟩⟩
                    · rw [if_neg hc9] at h
                      by_cases hc10 : u.currentBot = some BOT_TYPES.ORDER_TRACKING_BOT
                      · rw [if_pos hc10] at h
                        injection h with h1 h2
                        exact Or.inl ⟨handleOrderTrackingMessage_currentBot _ _ _ _ _ h1, ⟨_, hc10⟩⟩
                      · rw [if_neg hc10] at h
                        by_cases hc11 : u.currentBot = some BOT_TYPES.MENTAL_HEALTH_BOT
                        · rw [if_pos hc11] at h
                          injection h with h1 h2
                          exact Or.inl ⟨handleMentalHealthMessage_currentBot _ _ _ _ _ h1, ⟨_, hc11⟩⟩
                        · rw [if_neg hc11] at h
                          by_cases hc12 : u.currentBot = some BOT_TYPES.TRANSLATOR_BOT
                          · rw [if_pos hc12] at h
                            injection h with h1 h2
                            exact Or.inl ⟨handleTranslatorMessage_currentBot _ _ _ _ _ h1, ⟨_, hc12⟩⟩
                          · rw [if_neg hc12] at h
                            injection h with h1 h2
                            cases h1
                            exact Or.inr ⟨rfl, rfl⟩

/-- The dispatch switch reports either the active bot (a handler ran) or
`none` (the default fallback ran). -/
theorem delegate_dispatched (o : GenOracle) (msg : String) (u : UserData) :
    (delegate o msg u).2 = u.currentBot ∨ (delegate o msg u).2 = none := by
  unfold delegate
  by_cases hc0 : u.currentBot = some BOT_TYPES.REVISION_BOT
  · rw [if_pos hc0]
    exact Or.inl hc0.symm
  · rw [if_neg hc0]
    by_cases hc1 : u.currentBot = some BOT_TYPES.RESUME_GENERATOR_BOT
    · rw [if_pos hc1]
      exact Or.inl hc1.symm
    · rw [if_neg hc1]
      by_cases hc2 : u.currentBot = some BOT_TYPES.LEGAL_SIMPLIFIER_BOT
      · rw [if_pos hc2]
        exact Or.inl hc2.symm
      · rw [if_neg hc2]
        by_cases hc3 : u.currentBot = some BOT_TYPES.NEWS_DIGEST_BOT
        · rw [if_pos hc3]
          exact Or.inl hc3.symm
        · rw [if_neg hc3]
          by_cases hc4 : u.currentBot = some BOT_TYPES.RECIPE_COACH_BOT
          · rw [if_pos hc4]
            exact Or.inl hc4.symm
          · rw [if_neg hc4]
            by_cases hc5 : u.currentBot = some BOT_TYPES.CAREER_COUNSELOR_BOT
            · rw [if_pos hc5]
              exact Or.inl hc5.symm
            · rw [if_neg hc5]
              by_cases hc6 : u.currentBot = some BOT_TYPES.YOUTUBE_SCRIPT_BOT
              · rw [if_pos hc6]
                exact Or.inl hc6.symm
              · rw [if_neg hc6]
                by_cases hc7 : u.currentBot = some BOT_TYPES.LOCAL_SERVICES_BOT
                · rw [if_pos hc7]
                  exact Or.inl hc7.symm
                · rw [if_neg hc7]
                  by_cases hc8 : u.currentBot = some BOT_TYPES.FINANCE_REMINDER_BOT
                  · rw [if_pos hc8]
                    exact Or.inl hc8.symm
                  · rw [if_neg hc8]
                    by_cases hc9 : u.currentBot = some BOT_TYPES.INSTAGRAM_CAPTION_BOT
                    · rw [if_pos hc9]
                      exact Or.inl hc9.symm
                    · rw [if_neg hc9]
                      by_cases hc10 : u.currentBot = some BOT_TYPES.ORDER_TRACKING_BOT
                      · rw [if_pos hc10]
                        exact Or.inl hc10.symm
                      · rw [if_neg hc10]
                        by_cases hc11 : u.currentBot = some BOT_TYPES.MENTAL_HEALTH_BOT
                        · rw [if_pos hc11]
                          exact Or.inl hc11.symm
                        · rw [if_neg hc11]
                          by_cases hc12 : u.currentBot = some BOT_TYPES.TRANSLATOR_BOT
                          · rw [if_pos hc12]
                            exact Or.inl hc12.symm
                          · rw [if_neg hc12]
                            exact Or.inr rfl

/-- A registry hit's target is one of the registry's values. -/
theorem mainMenuLookup_mem (msg b : String) (h : lookupStr MAIN_MENU_PAIRS msg = some b) :
    b ∈ MAIN_MENU_PAIRS.map Prod.snd := by
  unfold lookupStr MAIN_MENU_PAIRS at h
  simp only [List.lookup] at h
  repeat' split at h
  all_goals cases h
  all_goals decide

/-- The global-command branch in full: reset plus menu reply, with two
saves, sends and acknowledgments. -/
theorem routerStep_global (o : GenOracle) (u : UserData) (body : String)
    (media : Bool) (now : Nat)
    (h : jsToLower (jsTrim body) = "restart" ∨ jsToLower (jsTrim body) = "main menu") :
    routerStep o u body media now =
      { userData := { clearAllFlowData u with lastInteraction := now },
        reply := mainMenuReply, saves := 2, sends := 2, acks := 2, dispatched := none } := by
  unfold routerStep
  simp only []
  rw [if_pos h]

/-- One router step keeps the active bot inside `reachableBots`, and only
dispatches to a bot from `reachableBots`. -/
theorem routerStep_reachable (o : GenOracle) (u : UserData) (body : String)
    (media : Bool) (now : Nat) (h : u.currentBot ∈ reachableBots) :
    (routerStep o u body media now).userData.currentBot ∈ reachableBots
    ∧ (routerStep o u body media now).dispatched ∈ reachableBots := by
  unfold routerStep
  simp only []
  by_cases hg : jsToLower (jsTrim body) = "restart" ∨ jsToLower (jsTrim body) = "main menu"
  · rw [if_pos hg]
    exact ⟨List.mem_cons_self _ _, List.mem_cons_self _ _⟩
  · rw [if_neg hg]
    by_cases hs : u.sessionState = USER_STATES.AWAITING_BOT_SELECTION
    · rw [if_pos hs]
      refine ⟨?_, List.mem_cons_self _ _⟩
      rcases botSelection_currentBot (jsToLower (jsTrim body)) u with ⟨hc, _⟩ | ⟨b, hlk, hcb⟩
      · show (botSelection (jsToLower (jsTrim body)) u).2.currentBot ∈ reachableBots
        rw [hc]; exact h
      · show (botSelection (jsToLower (jsTrim body)) u).2.currentBot ∈ reachableBots
        rw [hcb]
        have hmem := mainMenuLookup_mem _ _ hlk
        rcases List.mem_map.mp hmem with ⟨p, hp, hpb⟩
        exact List.mem_cons_of_mem _ (List.mem_map.mpr ⟨p, hp, by rw [hpb]⟩)
    · rw [if_neg hs]
      have hdisp := delegate_dispatched o (jsToLower (jsTrim body)) u
      rcases hd : delegate o (jsToLower (jsTrim body)) u with ⟨res, d⟩
      rw [hd] at hdisp
      have hdmem : d ∈ reachableBots := by
        rcases hdisp with h1 | h1
        · rw [show (res, d).2 = d from rfl] at h1; rw [h1]; exact h
        · rw [show (res, d).2 = d from rfl] at h1; rw [h1]; exact List.mem_cons_self _ _
      cases res with
      | ok p =>
          obtain ⟨reply, u1⟩ := p
          refine ⟨?_, hdmem⟩
          rcases delegate_ok_currentBot o _ u reply u1 d hd with ⟨hsame, _⟩ | ⟨hnone, _⟩
          · show u1.currentBot ∈ reachableBots
            rw [hsame]; exact h
          · show u1.currentBot ∈ reachableBots
            rw [hnone]; exact List.mem_cons_self _ _
      | error e =>
          exact ⟨List.mem_cons_self _ _, hdmem⟩

/-- Any run of requests keeps the active bot inside `reachableBots`. -/
theorem runMessages_reachable (o : GenOracle) (msgs : List (String × Bool × Nat))
    (u : UserData) (h : u.currentBot ∈ reachableBots) :
    (runMessages o u msgs).currentBot ∈ reachableBots := by
  induction msgs generalizing u with
  | nil => exact h
  | cons m rest ih =>
      exact ih _ (routerStep_reachable o u m.1 m.2.1 m.2.2 h).1

/-- No reachable bot value is the translator identity. -/
theorem reachable_not_translator (b : Option String) (h : b ∈ reachableBots) :
    (b == some BOT_TYPES.TRANSLATOR_BOT) = false := by
  simp [reachableBots, MAIN_MENU_PAIRS] at h
  rcases h with h | h | h | h | h | h | h | h | h | h | h | h | h
  all_goals subst h
  all_goals decide

/-- C4: any global command ("restart" or "main menu", up to trimming and
case folding) resets the session from any prior state: no active bot, state
`AWAITING_BOT_SELECTION`, every per-flow data record cleared
(`clearAllFlowData`), the menu as the reply; and applying a global command
again yields the same session apart from the interaction timestamp. -/
theorem c4_global_command_idempotent (o o2 : GenOracle) (u : UserData)
    (body body2 : String) (media media2 : Bool) (now now2 : Nat)
    (h : jsToLower (jsTrim body) = "restart" ∨ jsToLower (jsTrim body) = "main menu")
    (h2 : jsToLower (jsTrim body2) = "restart" ∨ jsToLower (jsTrim body2) = "main menu") :
    (routerStep o u body media now).userData
      = { clearAllFlowData u with lastInteraction := now }
    ∧ (routerStep o u body media now).reply = mainMenuReply
    ∧ (routerStep o2 (routerStep o u body media now).userData body2 media2 now2).userData
      = { (routerStep o u body media now).userData with lastInteraction := now2 } := by
  rw [routerStep_global o u body media now h]
  refine ⟨rfl, rfl, ?_⟩
  rw [routerStep_global o2 _ body2 media2 now2 h2]
  rfl

/-- Witness for `c4_global_command_idempotent`: a fully populated session,
"main menu" sent with spacing and capitalization, then "restart". -/
theorem c4_global_command_idempotent_witness :
    (jsToLower (jsTrim " Main Menu ") = "restart"
      ∨ jsToLower (jsTrim " Main Menu ") = "main menu")
    ∧ (routerStep nullOracle populatedSession " Main Menu " false 5).userData
        = { clearAllFlowData populatedSession with lastInteraction := 5 }
    ∧ (routerStep nullOracle
        (routerStep nullOracle populatedSession " Main Menu " false 5).userData
        "restart" true 9).userData
      = { (routerStep nullOracle populatedSession " Main Menu " false 5).userData with
            lastInteraction := 9 } :=
  ⟨Or.inr (by decide),
   (c4_global_command_idempotent nullOracle nullOracle populatedSession
      " Main Menu " "restart" false true 5 9 (Or.inr (by decide)) (Or.inl (by decide))).1,
   (c4_global_command_idempotent nullOracle nullOracle populatedSession
      " Main Menu " "restart" false true 5 9 (Or.inr (by decide)) (Or.inl (by decide))).2.2⟩

/-- C10: the translator flow is unreachable at the public interface. From a
fresh session, over any sequence of inbound messages and any oracle
behavior, the session's `currentBot` is never the translator identity, and
no router step ever dispatches to the translator handler — even though the
dispatch switch and the selection switch both contain a translator case. -/
theorem c10_translator_unreachable (o : GenOracle) (fromNumber : String) (n0 : Nat)
    (msgs : List (String × Bool × Nat)) :
    ((runMessages o (freshUserData fromNumber n0) msgs).currentBot
        == some BOT_TYPES.TRANSLATOR_BOT) = false
    ∧ ∀ (body : String) (media : Bool) (now : Nat),
        ((routerStep o (runMessages o (freshUserData fromNumber n0) msgs)
            body media now).dispatched == some BOT_TYPES.TRANSLATOR_BOT) = false := by
  have hfresh : (freshUserData fromNumber n0).currentBot ∈ reachableBots :=
    List.mem_cons_self _ _
  have hrun := runMessages_reachable o msgs _ hfresh
  refine ⟨reachable_not_translator _ hrun, ?_⟩
  intro body media now
  exact reachable_not_translator _ (routerStep_reachable o _ body media now hrun).2


/-- A registry hit's key is never a reserved global command. -/
theorem mainMenuLookup_not_global (msg b : String)
    (h : lookupStr MAIN_MENU_PAIRS msg = some b) :
    msg ≠ "restart" ∧ msg ≠ "main menu" := by
  unfold lookupStr MAIN_MENU_PAIRS at h
  simp only [List.lookup] at h
  repeat' split at h
  all_goals cases h
  all_goals rename_i hbe
  all_goals have hmsg := eq_of_beq hbe
  all_goals subst hmsg
  all_goals exact ⟨by decide, by decide⟩

/-- A registry hit's target is one of the twelve registry values. -/
theorem mainMenuLookup_cases (msg b : String)
    (h : lookupStr MAIN_MENU_PAIRS msg = some b) :
    b = BOT_TYPES.REVISION_BOT
    ∨ b = BOT_TYPES.RESUME_GENERATOR_BOT
    ∨ b = BOT_TYPES.LEGAL_SIMPLIFIER_BOT
    ∨ b = BOT_TYPES.NEWS_DIGEST_BOT
    ∨ b = BOT_TYPES.RECIPE_COACH_BOT
    ∨ b = BOT_TYPES.CAREER_COUNSELOR_BOT
    ∨ b = BOT_TYPES.YOUTUBE_SCRIPT_BOT
    ∨ b = BOT_TYPES.LOCAL_SERVICES_BOT
    ∨ b = BOT_TYPES.FINANCE_REMINDER_BOT
    ∨ b = BOT_TYPES.INSTAGRAM_CAPTION_BOT
    ∨ b = BOT_TYPES.ORDER_TRACKING_BOT
    ∨ b = BOT_TYPES.MENTAL_HEALTH_BOT := by
  have hm := mainMenuLookup_mem msg b h
  simp [MAIN_MENU_PAIRS] at hm
  tauto

/-- C5: a valid selection code entered at the top menu sets `currentBot` to
the registry target, sets that flow's defined entry state and replies with
that flow's welcome prompt. -/
theorem c5_valid_selection (o : GenOracle) (u : UserData) (body : String)
    (media : Bool) (now : Nat) (bot : String)
    (hstate : u.sessionState = USER_STATES.AWAITING_BOT_SELECTION)
    (hlk : lookupStr MAIN_MENU_PAIRS (jsToLower (jsTrim body)) = some bot) :
    (routerStep o u body media now).userData.currentBot = some bot
    ∧ some (routerStep o u body media now).userData.sessionState
        = lookupStr flowEntryState bot
    ∧ some (routerStep o u body media now).reply = lookupStr flowWelcome bot := by
  obtain ⟨hnr, hnm⟩ := mainMenuLookup_not_global _ _ hlk
  unfold routerStep
  simp only []
  rw [if_neg (fun hg => hg.elim hnr hnm), if_pos hstate]
  unfold botSelection
  rw [hlk]
  simp only []
  rcases mainMenuLookup_cases _ _ hlk with hb | hb | hb | hb | hb | hb | hb | hb | hb | hb | hb | hb
  · subst hb
    rw [if_pos rfl]
    exact ⟨rfl, rfl, rfl⟩
  · subst hb
    rw [if_neg (by decide)]
    rw [if_pos rfl]
    exact ⟨rfl, rfl, rfl⟩
  · subst hb
    rw [if_neg (by decide)]
    rw [if_neg (by decide)]
    rw [if_pos rfl]
    exact ⟨rfl, rfl, rfl⟩
  · subst hb
    rw [if_neg (by decide)]
    rw [if_neg (by decide)]
    rw [if_neg (by decide)]
    rw [if_pos rfl]
    exact ⟨rfl, rfl, rfl⟩
  · subst hb
    rw [if_neg (by decide)]
    rw [if_neg (by decide)]
    rw [if_neg (by decide)]
    rw [if_neg (by decide)]
    rw [if_pos rfl]
    exact ⟨rfl, rfl, rfl⟩
  · subst hb
    rw [if_neg (by decide)]
    rw [if_neg (by decide)]
    rw [if_neg (by decide)]
    rw [if_neg (by decide)]
    rw [if_neg (by decide)]
    rw [if_pos rfl]
    exact ⟨rfl, rfl, rfl⟩
  · subst hb
    rw [if_neg (by decide)]
    rw [if_neg (by decide)]
    rw [if_neg (by decide)]
    rw [if_neg (by decide)]
    rw [if_neg (by decide)]
    rw [if_neg (by decide)]
    rw [if_pos rfl]
    exact ⟨rfl, rfl, rfl⟩
  · subst hb
    rw [if_neg (by decide)]
    rw [if_neg (by decide)]
    rw [if_neg (by decide)]
    rw [if_neg (by decide)]
    rw [if_neg (by decide)]
    rw [if_neg (by decide)]
    rw [if_neg (by decide)]
    rw [if_pos rfl]
    exact ⟨rfl, rfl, rfl⟩
  · subst hb
    rw [if_neg (by decide)]
    rw [if_neg (by decide)]
    rw [if_neg (by decide)]
    rw [if_neg (by decide)]
    rw [if_neg (by decide)]
    rw [if_neg (by decide)]
    rw [if_neg (by decide)]
    rw [if_neg (by decide)]
    rw [if_pos rfl]
    exact ⟨rfl, rfl, rfl⟩
  · subst hb
    rw [if_neg (by decide)]
    rw [if_neg (by decide)]
    rw [if_neg (by decide)]
    rw [if_neg (by decide)]
    rw [if_neg (by decide)]
    rw [if_neg (by decide)]
    rw [if_neg (by decide)]
    rw [if_neg (by decide)]
    rw [if_neg (by decide)]
    rw [if_pos rfl]
    exact ⟨rfl, rfl, rfl⟩
  · subst hb
    rw [if_neg (by decide)]
    rw [if_neg (by decide)]
    rw [if_neg (by decide)]
    rw [if_neg (by decide)]
    rw [if_neg (by decide)]
    rw [if_neg (by decide)]
    rw [if_neg (by decide)]
    rw [if_neg (by decide)]
    rw [if_neg (by decide)]
    rw [if_neg (by decide)]
    rw [if_pos rfl]
    exact ⟨rfl, rfl, rfl⟩
  · subst hb
    rw [if_neg (by decide)]
    rw [if_neg (by decide)]
    rw [if_neg (by decide)]
    rw [if_neg (by decide)]
    rw [if_neg (by decide)]
    rw [if_neg (by decide)]
    rw [if_neg (by decide)]
    rw [if_neg (by decide)]
    rw [if_neg (by decide)]
    rw [if_neg (by decide)]
    rw [if_neg (by decide)]
    rw [if_pos rfl]
    exact ⟨rfl, rfl, rfl⟩


/-- C3 (amended): in the quiz flow, facade failures substitute the fixed
apology into the reply, but do not always keep the user on the same step.
First part: when the explanation call fails during a quiz answer, the fixed
apology is substituted into the verdict, yet the quiz still advances — to
the next question while any remain, and otherwise to the revision menu with
the quiz record cleared (contradicting the original "does not advance";
see `c3_explanation_failure_still_advances`). Second part: for the gating
structured-generation call, a failure does keep the user retry-eligible:
the flow returns to the revision menu with a retry prompt and an unchanged
session otherwise. -/
theorem c3_facade_failure_policy :
    (∀ (o : GenOracle) (u : UserData) (q : QuizQuestion) (msg : String),
       (∀ p, o.complete p = none) →
       u.sessionState = REVISION_BOT_STATES.AWAITING_QUIZ_ANSWER →
       u.currentQuiz.lastQuestionSent = some q →
       ∃ (reply : String) (u' : UserData),
         handleRevisionBotMessage o msg u = .ok (reply, u')
         ∧ (∃ pre post, reply = pre ++ explanationApology ++ post
             ∧ (pre = "✅ Correct! " ∨ pre = "❌ Incorrect. "))
         ∧ (if u.currentQuiz.currentQIndex + 1 < u.currentQuiz.questionIds.length then
              u'.sessionState = REVISION_BOT_STATES.AWAITING_QUIZ_ANSWER
              ∧ u'.currentQuiz.currentQIndex = u.currentQuiz.currentQIndex + 1
            else
              u'.sessionState = REVISION_BOT_STATES.MAIN_MENU
              ∧ u'.currentQuiz = emptyQuiz))
    ∧ (∀ (o : GenOracle) (u : UserData) (msg : String),
       (∀ p, o.structured p = none) →
       u.sessionState = REVISION_BOT_STATES.AWAITING_AI_QUIZ_TOPIC →
       handleRevisionBotMessage o msg u =
         .ok ("Sorry, I couldn't generate a quiz for \"" ++ msg
               ++ "\". Please try a different topic or try again later.",
              { u with sessionState := REVISION_BOT_STATES.MAIN_MENU })) := by
  constructor
  · intro o u q msg hfail hstate hlast
    unfold handleRevisionBotMessage
    rw [if_neg (by rw [hstate]; decide), if_neg (by rw [hstate]; decide),
        if_neg (by rw [hstate]; decide), if_neg (by rw [hstate]; decide),
        if_pos hstate, hlast]
    simp only [generateExplanation, hfail]
    by_cases hc : (userAnswerIndexOf msg == some q.correctAnswerIndex) = true
    · rw [if_pos hc, if_pos hc]
      by_cases hlt : u.currentQuiz.currentQIndex + 1 < u.currentQuiz.questionIds.length
      · rw [dif_pos hlt]
        refine ⟨_, _, rfl, ⟨"✅ Correct! ", _, String.append_assoc _ _ _, Or.inl rfl⟩, ?_⟩
        rw [if_pos hlt]
        exact ⟨rfl, rfl⟩
      · rw [dif_neg hlt]
        refine ⟨_, _, rfl, ⟨"✅ Correct! ", _, rfl, Or.inl rfl⟩, ?_⟩
        rw [if_neg hlt]
        exact ⟨rfl, rfl⟩
    · rw [if_neg hc, if_neg hc]
      by_cases hlt : u.currentQuiz.currentQIndex + 1 < u.currentQuiz.questionIds.length
      · rw [dif_pos hlt]
        refine ⟨_, _, rfl, ⟨"❌ Incorrect. ", _, String.append_assoc _ _ _, Or.inr rfl⟩, ?_⟩
        rw [if_pos hlt]
        exact ⟨rfl, rfl⟩
      · rw [dif_neg hlt]
        refine ⟨_, _, rfl, ⟨"❌ Incorrect. ", _, rfl, Or.inr rfl⟩, ?_⟩
        rw [if_neg hlt]
        exact ⟨rfl, rfl⟩
  · intro o u msg hfail hstate
    unfold handleRevisionBotMessage
    rw [if_neg (by rw [hstate]; decide), if_neg (by rw [hstate]; decide),
        if_neg (by rw [hstate]; decide), if_pos hstate]
    rw [show generateAIQuiz o u.examType u.subject msg = [] from by
      unfold generateAIQuiz; rw [hfail]]

/-- C3 counterexample: with a failing explanation facade, answering "b" in a
two-question quiz advances `currentQIndex` from 0 to 1 and stays in the
answer state, while the reply carries the apology — the flow does not remain
on the same question as the claim demands. -/
theorem c3_explanation_failure_still_advances :
    (handleRevisionBotMessage nullOracle "b" quizSession).map
        (fun p => (p.2.currentQuiz.currentQIndex, p.2.sessionState))
      = .ok (1, REVISION_BOT_STATES.AWAITING_QUIZ_ANSWER)
    ∧ (handleRevisionBotMessage nullOracle "b" quizSession).map
          (fun p => jsIncludes p.1 explanationApology)
        = .ok true := by
  decide

/-- Witness for `c3_facade_failure_policy` at the two-question session. -/
theorem c3_facade_failure_policy_witness :
    (∀ p, nullOracle.complete p = none)
    ∧ quizSession.sessionState = REVISION_BOT_STATES.AWAITING_QUIZ_ANSWER
    ∧ (∃ (reply : String) (u' : UserData),
        handleRevisionBotMessage nullOracle "b" quizSession = .ok (reply, u')
        ∧ (∃ pre post, reply = pre ++ explanationApology ++ post
            ∧ (pre = "✅ Correct! " ∨ pre = "❌ Incorrect. "))
        ∧ (if quizSession.currentQuiz.currentQIndex + 1
              < quizSession.currentQuiz.questionIds.length then
             u'.sessionState = REVISION_BOT_STATES.AWAITING_QUIZ_ANSWER
             ∧ u'.currentQuiz.currentQIndex = quizSession.currentQuiz.currentQIndex + 1
           else
             u'.sessionState = REVISION_BOT_STATES.MAIN_MENU
             ∧ u'.currentQuiz = emptyQuiz)) :=
  ⟨fun _ => rfl, rfl,
   c3_facade_failure_policy.1 nullOracle quizSession sampleQuestion0 "b"
     (fun _ => rfl) rfl rfl⟩

/-- C8 (amended): `generateAIQuiz` fails closed on thrown errors — any
network failure or parse failure yields the empty list — but it performs no
schema validation of its own: any successfully parsed batch is returned
as-is with `examType`, `subject` and `topic` added, whatever its options
lengths or correct indices (see `c8_malformed_batch_returned`). The caller
treats an empty batch as no-quiz-available and returns to the revision menu
with a retry prompt, changing nothing else in the session (the non-empty
branch is the only one that indexes into the batch). -/
theorem c8_quiz_generation_fail_closed :
    (∀ (o : GenOracle) (e s : Option String) (t : String),
       o.structured (aiQuizPrompt e s t) = none → generateAIQuiz o e s t = [])
    ∧ (∀ (o : GenOracle) (e s : Option String) (t : String) (raws : List RawQuestion),
       o.structured (aiQuizPrompt e s t) = some raws →
       generateAIQuiz o e s t = raws.map (fun q =>
         { question := q.question, options := q.options,
           correctAnswerIndex := q.correctAnswerIndex,
           examType := e, subject := s, topic := t })
       ∧ (generateAIQuiz o e s t).length = raws.length)
    ∧ (∀ (o : GenOracle) (u : UserData) (msg : String),
       u.sessionState = REVISION_BOT_STATES.AWAITING_AI_QUIZ_TOPIC →
       generateAIQuiz o u.examType u.subject msg = [] →
       handleRevisionBotMessage o msg u =
         .ok ("Sorry, I couldn't generate a quiz for \"" ++ msg
               ++ "\". Please try a different topic or try again later.",
              { u with sessionState := REVISION_BOT_STATES.MAIN_MENU })) := by
  refine ⟨?_, ?_, ?_⟩
  · intro o e s t h
    unfold generateAIQuiz
    rw [h]
  · intro o e s t raws h
    constructor
    · unfold generateAIQuiz
      rw [h]
    · unfold generateAIQuiz
      rw [h]
      simp
  · intro o u msg hstate hempty
    unfold handleRevisionBotMessage
    rw [if_neg (by rw [hstate]; decide), if_neg (by rw [hstate]; decide),
        if_neg (by rw [hstate]; decide), if_pos hstate, hempty]

/-- Witness for `c8_quiz_generation_fail_closed` with a failing oracle at a
concrete topic session. -/
theorem c8_quiz_generation_fail_closed_witness :
    generateAIQuiz nullOracle topicSession.examType topicSession.subject "optics" = []
    ∧ topicSession.sessionState = REVISION_BOT_STATES.AWAITING_AI_QUIZ_TOPIC
    ∧ handleRevisionBotMessage nullOracle "optics" topicSession =
        .ok ("Sorry, I couldn't generate a quiz for \"" ++ "optics"
              ++ "\". Please try a different topic or try again later.",
             { topicSession with sessionState := REVISION_BOT_STATES.MAIN_MENU }) :=
  ⟨rfl, rfl,
   c8_quiz_generation_fail_closed.2.2 nullOracle topicSession "optics" rfl rfl⟩

/-- Witness for `c5_valid_selection`: a fresh user sends "1" and lands in
the exam revision flow's entry state with its welcome prompt. -/
theorem c5_valid_selection_witness :
    (freshUserData "user-c5" 0).sessionState = USER_STATES.AWAITING_BOT_SELECTION
    ∧ lookupStr MAIN_MENU_PAIRS (jsToLower (jsTrim "1")) = some BOT_TYPES.REVISION_BOT
    ∧ (routerStep nullOracle (freshUserData "user-c5" 0) "1" false 2).userData.currentBot
        = some BOT_TYPES.REVISION_BOT
    ∧ some (routerStep nullOracle (freshUserData "user-c5" 0) "1" false 2).userData.sessionState
        = lookupStr flowEntryState BOT_TYPES.REVISION_BOT
    ∧ some (routerStep nullOracle (freshUserData "user-c5" 0) "1" false 2).reply
        = lookupStr flowWelcome BOT_TYPES.REVISION_BOT :=
  ⟨rfl, by decide,
   (c5_valid_selection nullOracle (freshUserData "user-c5" 0) "1" false 2
      BOT_TYPES.REVISION_BOT rfl (by decide)).1,
   (c5_valid_selection nullOracle (freshUserData "user-c5" 0) "1" false 2
      BOT_TYPES.REVISION_BOT rfl (by decide)).2.1,
   (c5_valid_selection nullOracle (freshUserData "user-c5" 0) "1" false 2
      BOT_TYPES.REVISION_BOT rfl (by decide)).2.2⟩


/-- C6: the quiz answer mapping. Letters a, b, c, d map to option indices
0 to 3 via the character code minus 97; any other single character maps to
an index outside 0..3; the score counter is incremented on an answered
question exactly when the mapped index equals the stored correct index; and
(given a stored correct index in 0..3, as the declared schema intends) any
other single character is always scored incorrect. -/
theorem c6_answer_mapping :
    (userAnswerIndexOf "a" = some 0 ∧ userAnswerIndexOf "b" = some 1
      ∧ userAnswerIndexOf "c" = some 2 ∧ userAnswerIndexOf "d" = some 3)
    ∧ (∀ (c : Char), c ≠ 'a' → c ≠ 'b' → c ≠ 'c' → c ≠ 'd' →
        ∀ i : Int, userAnswerIndexOf (String.singleton c) = some i → i < 0 ∨ 3 < i)
    ∧ (∀ (o : GenOracle) (u : UserData) (q : QuizQuestion) (msg : String)
         (reply : String) (u' : UserData),
        u.sessionState = REVISION_BOT_STATES.AWAITING_QUIZ_ANSWER →
        u.currentQuiz.lastQuestionSent = some q →
        u.currentQuiz.currentQIndex + 1 < u.currentQuiz.questionIds.length →
        handleRevisionBotMessage o msg u = .ok (reply, u') →
        (u'.currentQuiz.score = u.currentQuiz.score + 1
           ↔ userAnswerIndexOf msg = some q.correctAnswerIndex)
        ∧ (userAnswerIndexOf msg ≠ some q.correctAnswerIndex →
           u'.currentQuiz.score = u.currentQuiz.score))
    ∧ (∀ (o : GenOracle) (u : UserData) (q : QuizQuestion) (c : Char)
         (reply : String) (u' : UserData),
        u.sessionState = REVISION_BOT_STATES.AWAITING_QUIZ_ANSWER →
        u.currentQuiz.lastQuestionSent = some q →
        u.currentQuiz.currentQIndex + 1 < u.currentQuiz.questionIds.length →
        0 ≤ q.correctAnswerIndex → q.correctAnswerIndex ≤ 3 →
        c ≠ 'a' → c ≠ 'b' → c ≠ 'c' → c ≠ 'd' →
        handleRevisionBotMessage o (String.singleton c) u = .ok (reply, u') →
        u'.currentQuiz.score = u.currentQuiz.score) := by
  have part2 : ∀ (c : Char), c ≠ 'a' → c ≠ 'b' → c ≠ 'c' → c ≠ 'd' →
      ∀ i : Int, userAnswerIndexOf (String.singleton c) = some i → i < 0 ∨ 3 < i := by
    intro c h1 h2 h3 h4 i heq
    rw [show userAnswerIndexOf (String.singleton c) = some ((c.toNat : Int) - 97) from rfl]
      at heq
    injection heq with hi
    subst hi
    by_contra hcon
    push_neg at hcon
    obtain ⟨hl, hr⟩ := hcon
    have hcases : c.toNat = 97 ∨ c.toNat = 98 ∨ c.toNat = 99 ∨ c.toNat = 100 := by omega
    have hofn := Char.ofNat_toNat c
    rcases hcases with h | h | h | h
    · exact h1 (by rw [h] at hofn; exact hofn.symm)
    · exact h2 (by rw [h] at hofn; exact hofn.symm)
    · exact h3 (by rw [h] at hofn; exact hofn.symm)
    · exact h4 (by rw [h] at hofn; exact hofn.symm)
  have part3 : ∀ (o : GenOracle) (u : UserData) (q : QuizQuestion) (msg : String)
      (reply : String) (u' : UserData),
      u.sessionState = REVISION_BOT_STATES.AWAITING_QUIZ_ANSWER →
      u.currentQuiz.lastQuestionSent = some q →
      u.currentQuiz.currentQIndex + 1 < u.currentQuiz.questionIds.length →
      handleRevisionBotMessage o msg u = .ok (reply, u') →
      (u'.currentQuiz.score = u.currentQuiz.score + 1
         ↔ userAnswerIndexOf msg = some q.correctAnswerIndex)
      ∧ (userAnswerIndexOf msg ≠ some q.correctAnswerIndex →
         u'.currentQuiz.score = u.currentQuiz.score) := by
    intro o u q msg reply u' hstate hlast hlt hok
    unfold handleRevisionBotMessage at hok
    rw [if_neg (by rw [hstate]; decide), if_neg (by rw [hstate]; decide),
        if_neg (by rw [hstate]; decide), if_neg (by rw [hstate]; decide),
        if_pos hstate, hlast] at hok
    simp only [] at hok
    by_cases hc : (userAnswerIndexOf msg == some q.correctAnswerIndex) = true
    · rw [if_pos hc, if_pos hc, dif_pos hlt] at hok
      cases hok
      constructor
      · exact ⟨fun _ => eq_of_beq hc, fun _ => rfl⟩
      · intro hne
        exact absurd (eq_of_beq hc) hne
    · rw [if_neg hc, if_neg hc, dif_pos hlt] at hok
      cases hok
      constructor
      · constructor
        · intro hsc
          have hsc2 : u.currentQuiz.score = u.currentQuiz.score + 1 := hsc
          omega
        · intro heq
          exact absurd (beq_iff_eq.mpr heq) hc
      · intro _
        rfl
  refine ⟨by decide, part2, part3, ?_⟩
  intro o u q c reply u' hstate hlast hlt hc0 hc3 h1 h2 h3 h4 hok
  have hout := part2 c h1 h2 h3 h4 ((c.toNat : Int) - 97) rfl
  have hne : userAnswerIndexOf (String.singleton c) ≠ some q.correctAnswerIndex := by
    intro he
    rw [show userAnswerIndexOf (String.singleton c) = some ((c.toNat : Int) - 97) from rfl]
      at he
    injection he with hei
    rcases hout with hlt0 | hgt0 <;> omega
  exact (part3 o u q (String.singleton c) reply u' hstate hlast hlt hok).2 hne

/-- Witness for `c6_answer_mapping`: the letter z maps to index 25 (outside
0..3), and answering "b" on a question whose correct index is 1 increments
the score. -/
theorem c6_answer_mapping_witness :
    ('z' ≠ 'a')
    ∧ userAnswerIndexOf (String.singleton 'z') = some 25
    ∧ ((25 : Int) < 0 ∨ 3 < (25 : Int))
    ∧ (∃ (reply : String) (u' : UserData),
        handleRevisionBotMessage nullOracle "b" quizSession = .ok (reply, u')
        ∧ u'.currentQuiz.score = quizSession.currentQuiz.score + 1) := by
  refine ⟨by decide, by decide,
    c6_answer_mapping.2.1 'z' (by decide) (by decide) (by decide) (by decide) 25 (by decide),
    ?_⟩
  rcases hres : handleRevisionBotMessage nullOracle "b" quizSession with e | p
  · have hok : (handleRevisionBotMessage nullOracle "b" quizSession).isOk = true := by decide
    rw [hres] at hok
    exact Bool.noConfusion hok
  · obtain ⟨reply, u'⟩ := p
    exact ⟨reply, u', rfl,
      ((c6_answer_mapping.2.2.1 nullOracle quizSession sampleQuestion0 "b" reply u'
          rfl rfl (by decide) hres).1).mpr (by decide)⟩

/-- C7: one answered question preserves the quiz invariant
`score ≤ currentQIndex ≤ number of stored questions`, and the flow moves to
the revision menu with the quiz record reset to its empty default exactly
when the incremented index reaches the question count — with the final
reply carrying the score summary — while otherwise it stays in the
awaiting-answer state with the next question appended to the same reply. -/
theorem c7_quiz_progress (o : GenOracle) (u : UserData) (q : QuizQuestion) (msg : String)
    (reply : String) (u' : UserData)
    (hstate : u.sessionState = REVISION_BOT_STATES.AWAITING_QUIZ_ANSWER)
    (hlast : u.currentQuiz.lastQuestionSent = some q)
    (hscore : u.currentQuiz.score ≤ u.currentQuiz.currentQIndex)
    (hidx : u.currentQuiz.currentQIndex < u.currentQuiz.questionIds.length)
    (hok : handleRevisionBotMessage o msg u = .ok (reply, u')) :
    (u'.currentQuiz.score ≤ u'.currentQuiz.currentQIndex
      ∧ u'.currentQuiz.currentQIndex ≤ u'.currentQuiz.questionIds.length)
    ∧ (if u.currentQuiz.currentQIndex + 1 < u.currentQuiz.questionIds.length then
         u'.sessionState = REVISION_BOT_STATES.AWAITING_QUIZ_ANSWER
         ∧ u'.currentQuiz.questionIds = u.currentQuiz.questionIds
         ∧ u'.currentQuiz.currentQIndex = u.currentQuiz.currentQIndex + 1
         ∧ (∃ pre, ∃ hlt : u.currentQuiz.currentQIndex + 1 < u.currentQuiz.questionIds.length,
              u'.currentQuiz.lastQuestionSent
                = some (u.currentQuiz.questionIds.get
                    ⟨u.currentQuiz.currentQIndex + 1, hlt⟩)
              ∧ reply = pre ++ "\n\n"
                  ++ quizQuestionPrompt (u.currentQuiz.currentQIndex + 1)
                      (u.currentQuiz.questionIds.get
                        ⟨u.currentQuiz.currentQIndex + 1, hlt⟩))
       else
         u'.sessionState = REVISION_BOT_STATES.MAIN_MENU
         ∧ u'.currentQuiz = emptyQuiz
         ∧ (∃ pre s, s ≤ u.currentQuiz.questionIds.length
             ∧ reply = pre ++ quizSummary s u.currentQuiz.questionIds.length)) := by
  unfold handleRevisionBotMessage at hok
  rw [if_neg (by rw [hstate]; decide), if_neg (by rw [hstate]; decide),
      if_neg (by rw [hstate]; decide), if_neg (by rw [hstate]; decide),
      if_pos hstate, hlast] at hok
  simp only [] at hok
  by_cases hc : (userAnswerIndexOf msg == some q.correctAnswerIndex) = true
  · rw [if_pos hc, if_pos hc] at hok
    by_cases hlt : u.currentQuiz.currentQIndex + 1 < u.currentQuiz.questionIds.length
    · rw [dif_pos hlt] at hok
      cases hok
      refine ⟨⟨?_, ?_⟩, ?_⟩
      · show u.currentQuiz.score + 1 ≤ u.currentQuiz.currentQIndex + 1
        omega
      · show u.currentQuiz.currentQIndex + 1 ≤ u.currentQuiz.questionIds.length
        omega
      · rw [if_pos hlt]
        exact ⟨rfl, rfl, rfl, _, hlt, rfl, rfl⟩
    · rw [dif_neg hlt] at hok
      cases hok
      refine ⟨⟨Nat.le_refl 0, Nat.zero_le 0⟩, ?_⟩
      rw [if_neg hlt]
      exact ⟨rfl, rfl, _, u.currentQuiz.score + 1, by omega, rfl⟩
  · rw [if_neg hc, if_neg hc] at hok
    by_cases hlt : u.currentQuiz.currentQIndex + 1 < u.currentQuiz.questionIds.length
    · rw [dif_pos hlt] at hok
      cases hok
      refine ⟨⟨?_, ?_⟩, ?_⟩
      · show u.currentQuiz.score ≤ u.currentQuiz.currentQIndex + 1
        omega
      · show u.currentQuiz.currentQIndex + 1 ≤ u.currentQuiz.questionIds.length
        omega
      · rw [if_pos hlt]
        exact ⟨rfl, rfl, rfl, _, hlt, rfl, rfl⟩
    · rw [dif_neg hlt] at hok
      cases hok
      refine ⟨⟨Nat.le_refl 0, Nat.zero_le 0⟩, ?_⟩
      rw [if_neg hlt]
      exact ⟨rfl, rfl, _, u.currentQuiz.score, by omega, rfl⟩

/-- Witness for `c7_quiz_progress` at the two-question session. -/
theorem c7_quiz_progress_witness :
    quizSession.currentQuiz.score ≤ quizSession.currentQuiz.currentQIndex
    ∧ quizSession.currentQuiz.currentQIndex < quizSession.currentQuiz.questionIds.length
    ∧ (∃ (reply : String) (u' : UserData),
        handleRevisionBotMessage nullOracle "b" quizSession = .ok (reply, u')
        ∧ u'.currentQuiz.score ≤ u'.currentQuiz.currentQIndex
        ∧ u'.currentQuiz.currentQIndex ≤ u'.currentQuiz.questionIds.length) := by
  refine ⟨by decide, by decide, ?_⟩
  rcases hres : handleRevisionBotMessage nullOracle "b" quizSession with e | p
  · have hok : (handleRevisionBotMessage nullOracle "b" quizSession).isOk = true := by decide
    rw [hres] at hok
    exact Bool.noConfusion hok
  · obtain ⟨reply, u'⟩ := p
    exact ⟨reply, u', rfl,
      (c7_quiz_progress nullOracle quizSession sampleQuestion0 "b" reply u'
        rfl rfl (by decide) (by decide) hres).1⟩

/-- C1: the claim says every path persists the session exactly once and
sends exactly one reply. On the global-command path the branch saves, sends
and acknowledges and then `return`s, but the `finally` block of the
enclosing `try` still runs and repeats all three, so a "main menu" (or
"restart") message is persisted and replied twice, contradicting the
exactly-once policy (and the comment announcing an early exit). -/
theorem c1_global_command_saves_and_sends_twice :
    (routerStep nullOracle (freshUserData "user-c1" 0) "main menu" false 1).saves = 2
    ∧ (routerStep nullOracle (freshUserData "user-c1" 0) "main menu" false 1).sends = 2
    ∧ (routerStep nullOracle (freshUserData "user-c1" 0) "main menu" false 1).acks = 2
    ∧ (routerStep nullOracle (freshUserData "user-c1" 0) "restart" false 1).saves = 2 := by
  decide

/-- C8 counterexample: a successfully parsed batch whose only question has
three options and correct index 7 is returned as-is (non-empty) by
`generateAIQuiz`, contradicting the claim that schema-validation failures
such as a wrong-length options list or an out-of-range correct index yield
an empty sequence. -/
theorem c8_malformed_batch_returned :
    (generateAIQuiz malformedBatchOracle (some "JEE") (some "Math") "optics").length = 1
    ∧ (generateAIQuiz malformedBatchOracle (some "JEE") (some "Math") "optics").head?.map
        (fun q => (q.options.length, q.correctAnswerIndex)) = some (3, 7) := by
  decide

/-- C9: the claim says a message carrying media in the recipe coach's
ingredients state or the caption generator's photo state gets the fixed
stub reply and the session stays put. In the source both handlers read
`req.body.NumMedia` with `req` out of scope, so every message in those
states (media or not) throws a `ReferenceError`; the router's catch block
replies with the generic apology and resets the session to the top menu.
The stub replies exist in the source but are unreachable. -/
theorem c9_media_stub_unreachable :
    handleRecipeCoachMessage nullOracle "tomato, onion" recipeSession
      = .error (.referenceError "req is not defined")
    ∧ handleInstagramCaptionMessage nullOracle "sunset at beach" instaSession
      = .error (.referenceError "req is not defined")
    ∧ (routerStep nullOracle recipeSession "tomato, onion" true 1).reply = routerCatchReply
    ∧ (routerStep nullOracle recipeSession "tomato, onion" true 1).reply ≠ recipeStubReply
    ∧ (routerStep nullOracle recipeSession "tomato, onion" true 1).userData.sessionState
        = USER_STATES.AWAITING_BOT_SELECTION
    ∧ (routerStep nullOracle instaSession "sunset at beach" true 1).reply = routerCatchReply
    ∧ (routerStep nullOracle instaSession "sunset at beach" true 1).reply ≠ instagramStubReply
    ∧ (routerStep nullOracle instaSession "sunset at beach" true 1).userData.currentBot
        = none := by
  decide

end BotHub
